import Mathlib

/-!
# Verification of the podcast RSS generator against its specification

This file shallowly embeds the parts of `rss_generator.py` (and the package
variant `podcast_rss_generator/generator.py`) that the frozen claims are
about, and settles each claim.

Modelling conventions:
* Python values coming from the YAML config are modelled by the inductive
  type `PyVal` (None / bool / int / str / list / dict with string keys).
* Python strings are Lean `String`s; where index arithmetic matters the
  code works on `List Char` (Python slicing and `in` operate on code
  points, exactly like `List Char` here).
* Python code that can raise is modelled in `Except String`, the error
  string naming the exception.
* Machine floats only occur as `int(float(s))` on decimal literals coming
  out of ffprobe; this is modelled as exact decimal parsing followed by
  truncation toward zero (`pyFloatTruncInt`).
-/

/-- A Python value as it arrives from `yaml.safe_load`. -/
inductive PyVal where
  | none
  | bool (b : Bool)
  | int (n : Int)
  | str (s : String)
  | list (xs : List PyVal)
  | dict (kvs : List (String × PyVal))
  deriving Repr, BEq

/-- Python truthiness (`bool(v)`). -/
def pyTruthy : PyVal → Bool
  | PyVal.none => false
  | PyVal.bool b => b
  | PyVal.int n => n != 0
  | PyVal.str s => s != ""
  | PyVal.list xs => !xs.isEmpty
  | PyVal.dict kvs => !kvs.isEmpty

/-- Lookup in a (string-keyed) Python dict: first binding wins. -/
def dictLookup (kvs : List (String × PyVal)) (k : String) : Option PyVal :=
  (kvs.find? (fun p => p.1 == k)).map (fun p => p.2)

/-- `d.get(k)` on a dict, defaulting to `None`. -/
def dictGetD (kvs : List (String × PyVal)) (k : String) : PyVal :=
  (dictLookup kvs k).getD PyVal.none

/-- `v.get(k)` on an arbitrary value: attribute error off a non-dict. -/
def pyGetMethod (v : PyVal) (k : String) : Except String PyVal :=
  match v with
  | PyVal.dict kvs => Except.ok (dictGetD kvs k)
  | _ => Except.error "AttributeError: object has no attribute 'get'"

/-- `x == s` for a string literal `s` (Python cross-type `==` with a str is False). -/
def pyEqStr (v : PyVal) (s : String) : Bool :=
  match v with
  | PyVal.str t => t == s
  | _ => false

/-- `x == b` for a bool literal `b` (Python: `1 == True`, `0 == False`). -/
def pyEqBool (v : PyVal) (b : Bool) : Bool :=
  match v with
  | PyVal.bool a => a == b
  | PyVal.int n => n == (if b then 1 else 0)
  | _ => false

/-- Substring test, Python `needle in haystack` on strings. -/
def strContainsSub (haystack needle : String) : Bool :=
  (List.range (haystack.data.length + 1)).any
    (fun i => needle.data.isPrefixOf (haystack.data.drop i))

/-- Python `k in v` for a string key `k`: dict key lookup, list membership,
substring on str; `TypeError` on non-iterables. -/
def pyContains (v : PyVal) (k : String) : Except String Bool :=
  match v with
  | PyVal.dict kvs => Except.ok ((dictLookup kvs k).isSome)
  | PyVal.list xs => Except.ok (xs.any (fun x => pyEqStr x k))
  | PyVal.str s => Except.ok (strContainsSub s k)
  | _ => Except.error "TypeError: argument is not iterable"

/-- Python `v[k]` for a string key: only dicts support it. -/
def pyGetItem (v : PyVal) (k : String) : Except String PyVal :=
  match v with
  | PyVal.dict kvs =>
      match dictLookup kvs k with
      | some x => Except.ok x
      | none => Except.error ("KeyError: " ++ k)
  | PyVal.str _ => Except.error "TypeError: string indices must be integers"
  | PyVal.list _ => Except.error "TypeError: list indices must be integers"
  | _ => Except.error "TypeError: object is not subscriptable"

/-- Python `a or b`: `a` if truthy, else `b`. -/
def pyOr (a b : PyVal) : PyVal :=
  if pyTruthy a then a else b

/-- `isinstance(v, str)`. -/
def pyIsStr : PyVal → Bool
  | PyVal.str _ => true
  | _ => false

/-- `isinstance(v, bool)`. -/
def pyIsBool : PyVal → Bool
  | PyVal.bool _ => true
  | _ => false

/-- `isinstance(v, int)` — in Python `bool` is a subclass of `int`. -/
def pyIsInt : PyVal → Bool
  | PyVal.int _ => true
  | PyVal.bool _ => true
  | _ => false

/-- Numeric value of an int-like Python value (`True` counts as 1). -/
def pyIntVal : PyVal → Int
  | PyVal.int n => n
  | PyVal.bool b => if b then 1 else 0
  | _ => 0

/-- ASCII whitespace stripped by Python `str.strip()` (the common subset). -/
def pyIsSpace (c : Char) : Bool :=
  c == ' ' || c == '\t' || c == '\n' || c == '\x0d' || c == '\x0b' || c == '\x0c'

/-- Python `s.strip()` (whitespace from both ends; ASCII whitespace subset). -/
def pyStrip (s : String) : String :=
  String.mk (((s.data.dropWhile pyIsSpace).reverse.dropWhile pyIsSpace).reverse)

/-- Python `s.strip(chars)`: remove any of `chars` from both ends. -/
def pyStripChars (s : String) (chars : List Char) : String :=
  String.mk (((s.data.dropWhile (chars.contains ·)).reverse.dropWhile
    (chars.contains ·)).reverse)

/-- Python `str(v)` (repr-style nesting for containers; str reprs use
single quotes without escaping, a faithful subset for config values). -/
def pyToStr : PyVal → String
  | PyVal.none => "None"
  | PyVal.bool b => if b then "True" else "False"
  | PyVal.int n => toString n
  | PyVal.str s => s
  | PyVal.list _ => "[...]"
  | PyVal.dict _ => "{...}"

/-- Python `str.replace` with a single-character needle (the only shape
the code uses: `"Z" → "+00:00"` and `"&" → "&amp;"`): every occurrence of
the character is replaced, left to right. -/
def pyReplaceL (needle : Char) (repl : List Char) : List Char → List Char
  | [] => []
  | c :: rest =>
      if c = needle then repl ++ pyReplaceL needle repl rest
      else c :: pyReplaceL needle repl rest

/-- Python `s.replace(needle, repl)` for a one-character needle. -/
def pyReplace (s : String) (needle : Char) (repl : String) : String :=
  String.mk (pyReplaceL needle repl.data s.data)

/-- Python `s.split(sep)` for a one-character separator (the code splits
on `"\n"` and `"="` only): cut at every occurrence, keeping empty parts. -/
def pySplitL (sep : Char) : List Char → List (List Char)
  | [] => [[]]
  | c :: rest =>
      let r := pySplitL sep rest
      if c = sep then [] :: r
      else
        match r with
        | h :: t => (c :: h) :: t
        | [] => [[c]]

/-- Python `s.split(sep)` for a one-character separator, on strings. -/
def pySplit (s : String) (sep : Char) : List String :=
  (pySplitL sep s.data).map String.mk

/-- Python `s.startswith(p)`. -/
def pyStartswith (s p : String) : Bool :=
  p.data.isPrefixOf s.data

/-! ## Validity predicates (`is_valid_url`, `is_valid_email`, `is_valid_iso_date`) -/

/-- Character class `[a-zA-Z0-9._%+-]` of the local part of the email regex. -/
def emailLocalChar (c : Char) : Bool :=
  c.isAlpha || c.isDigit || c == '.' || c == '_' || c == '%' || c == '+' || c == '-'

/-- Character class `[a-zA-Z0-9.-]` of the domain part of the email regex. -/
def emailDomainChar (c : Char) : Bool :=
  c.isAlpha || c.isDigit || c == '.' || c == '-'

/-- ASCII letter, the class `[a-zA-Z]`. -/
def asciiAlpha (c : Char) : Bool :=
  ('a' ≤ c && c ≤ 'z') || ('A' ≤ c && c ≤ 'Z')

/-- Does `l` match `[a-zA-Z0-9.-]+\.[a-zA-Z]{2,}` (whole-list match, with the
regex engine's backtracking over the position of the final dot)? -/
def emailDomainMatch (l : List Char) : Bool :=
  (List.range l.length).any (fun i =>
    decide (0 < i) && (l.drop i).take 1 == ['.'] && (l.take i).all emailDomainChar &&
      decide (2 ≤ (l.drop (i + 1)).length) && (l.drop (i + 1)).all asciiAlpha)

/-- Whole-string match of `[a-zA-Z0-9._%+-]+@[a-zA-Z0-9.-]+\.[a-zA-Z]{2,}`.
Neither character class contains `@`, so the string splits at its first `@`. -/
def emailCoreMatch (l : List Char) : Bool :=
  let local_part := l.takeWhile (fun c => c ≠ '@')
  let rest := l.drop (local_part.length)
  match rest with
  | '@' :: domain => (!local_part.isEmpty) && local_part.all emailLocalChar &&
      emailDomainMatch domain
  | _ => false

/-- `re.match(r"^[a-zA-Z0-9._%+-]+@[a-zA-Z0-9.-]+\.[a-zA-Z]{2,}$", s)` is not
None.  Python's `$` also matches just before one final newline. -/
def pyReMatchEmail (s : String) : Bool :=
  emailCoreMatch s.data ||
    (s.data.getLast? == some '\n' && emailCoreMatch s.data.dropLast)

/-- `is_valid_email` of `rss_generator.py` (lines 182-185): a bare
`re.match`, which raises `TypeError` when handed a non-string. -/
def is_valid_email (v : PyVal) : Except String Bool :=
  match v with
  | PyVal.str s => Except.ok (pyReMatchEmail s)
  | _ => Except.error "TypeError: expected string or bytes-like object"

/-- Scheme characters after the first: `[a-zA-Z0-9+.-]`. -/
def urlSchemeChar (c : Char) : Bool :=
  c.isAlpha || c.isDigit || c == '+' || c == '-' || c == '.'

/-- Model of `urllib.parse.urlparse` restricted to the two fields the code
reads: `(scheme, netloc)`.  The scheme is the part before the first `:`
when it is letter-initial and scheme-charactered; the netloc is the chunk
after a leading `//`, up to the first `/`, `?` or `#`.  `urlsplit` raises
`ValueError` on a netloc with unbalanced square brackets. -/
def urlparseSchemeNetloc (s : String) : Except String (String × String) :=
  let l := s.data
  let beforeColon := l.takeWhile (fun c => c ≠ ':')
  let hasColon := beforeColon.length < l.length
  let schemeOk := hasColon && !beforeColon.isEmpty &&
    ((beforeColon.take 1).all Char.isAlpha) && (beforeColon.all urlSchemeChar)
  let scheme := if schemeOk then String.mk (beforeColon.map Char.toLower) else ""
  let rest := if schemeOk then l.drop (beforeColon.length + 1) else l
  let netloc :=
    if rest.take 2 == ['/', '/'] then
      (rest.drop 2).takeWhile (fun c => c ≠ '/' && c ≠ '?' && c ≠ '#')
    else []
  if (netloc.contains '[' && !netloc.contains ']') ||
     (netloc.contains ']' && !netloc.contains '[') then
    Except.error "ValueError: Invalid IPv6 URL"
  else
    Except.ok (scheme, String.mk netloc)

/-- `is_valid_url` of `rss_generator.py` (lines 173-179):
`all([result.scheme, result.netloc])`, with every exception (including the
`TypeError`/`AttributeError` on non-string input) caught and turned into
`False`. -/
def is_valid_url (v : PyVal) : Bool :=
  match v with
  | PyVal.str s =>
      match urlparseSchemeNetloc s with
      | Except.ok (scheme, netloc) => scheme != "" && netloc != ""
      | Except.error _ => false
  | _ => false

/-! ## `datetime.fromisoformat` (stdlib collaborator, modelled subset)

The model accepts `YYYY-MM-DD`, optionally followed by a single separator
character and `HH:MM:SS` with an optional fraction of 1-6 digits, and an
optional UTC offset `±HH:MM`; components are range-checked like the
stdlib parser.  Out-of-subset strings (which the claims never use) are
rejected. -/

/-- A parsed datetime: calendar fields plus an optional offset in seconds. -/
structure PyDateTime where
  year : Nat
  month : Nat
  day : Nat
  hour : Nat
  minute : Nat
  second : Nat
  microsecond : Nat
  offsetSeconds : Option Int
  deriving Repr, DecidableEq

/-- All characters are decimal digits. -/
def allDigits (l : List Char) : Bool := l.all Char.isDigit

/-- Numeric value of a digit list (most significant first). -/
def digitsToNat (l : List Char) : Nat :=
  l.foldl (fun n c => n * 10 + (c.toNat - '0'.toNat)) 0

/-- Is `y` a Gregorian leap year? -/
def isLeapYear (y : Nat) : Bool :=
  (y % 4 == 0 && y % 100 != 0) || y % 400 == 0

/-- Days in a month (`y`, `m` 1-based). -/
def daysInMonth (y m : Nat) : Nat :=
  if m == 2 then (if isLeapYear y then 29 else 28)
  else if m == 4 || m == 6 || m == 9 || m == 11 then 30
  else 31

/-- Parse `HH:MM:SS[.ffffff]` plus optional offset from a char list. -/
def parseTimeAndOffset (l : List Char) : Option (Nat × Nat × Nat × Nat × Option Int) :=
  match l with
  | h1 :: h2 :: ':' :: m1 :: m2 :: ':' :: s1 :: s2 :: rest =>
    if allDigits [h1, h2, m1, m2, s1, s2] then
      let hh := digitsToNat [h1, h2]
      let mm := digitsToNat [m1, m2]
      let ss := digitsToNat [s1, s2]
      let fracSplit : Option (Nat × List Char) :=
        match rest with
        | '.' :: fr =>
            let digs := fr.takeWhile Char.isDigit
            if 1 ≤ digs.length && digs.length ≤ 6 then
              some (digitsToNat digs * 10 ^ (6 - digs.length), fr.drop digs.length)
            else none
        | _ => some (0, rest)
      match fracSplit with
      | none => none
      | some (u, rest2) =>
        let offs : Option (Option Int) :=
          match rest2 with
          | [] => some none
          | sign :: o1 :: o2 :: ':' :: o3 :: o4 :: [] =>
            if (sign == '+' || sign == '-') && allDigits [o1, o2, o3, o4] then
              let oh := digitsToNat [o1, o2]
              let om := digitsToNat [o3, o4]
              if oh ≤ 23 && om ≤ 59 then
                let total : Int := (oh * 3600 + om * 60 : Nat)
                some (some (if sign == '-' then -total else total))
              else none
            else none
          | _ => none
        match offs with
        | some o =>
            if hh ≤ 23 && mm ≤ 59 && ss ≤ 59 then some (hh, mm, ss, u, o) else none
        | none => none
    else none
  | _ => none

/-- `datetime.fromisoformat` on the modelled subset. -/
def pyFromisoformat (s : String) : Option PyDateTime :=
  match s.data with
  | y1 :: y2 :: y3 :: y4 :: '-' :: m1 :: m2 :: '-' :: d1 :: d2 :: rest =>
    if allDigits [y1, y2, y3, y4, m1, m2, d1, d2] then
      let y := digitsToNat [y1, y2, y3, y4]
      let mo := digitsToNat [m1, m2]
      let d := digitsToNat [d1, d2]
      if 1 ≤ y && 1 ≤ mo && mo ≤ 12 && 1 ≤ d && d ≤ daysInMonth y mo then
        match rest with
        | [] => some ⟨y, mo, d, 0, 0, 0, 0, Option.none⟩
        | _ :: timePart =>
          match parseTimeAndOffset timePart with
          | some (hh, mm, ss, us, off) => some ⟨y, mo, d, hh, mm, ss, us, off⟩
          | none => none
      else none
    else none
  | _ => none

/-- `is_valid_iso_date` of `rss_generator.py` (lines 188-196): replace `Z`
with `+00:00`, try `fromisoformat`, `ValueError` means invalid.  A
non-string raises (`.replace` is a str method), uncaught by the function. -/
def is_valid_iso_date (v : PyVal) : Except String Bool :=
  match v with
  | PyVal.str s =>
      Except.ok ((pyFromisoformat (pyReplace s 'Z' "+00:00")).isSome)
  | _ => Except.error "AttributeError: object has no attribute 'replace'"

/-- Days between a Gregorian date and 1970-01-01 (civil-from-days
algorithm; year ≥ 1 keeps every division nonnegative). -/
def daysFromCivil (y : Int) (m d : Nat) : Int :=
  let yAdj : Int := if m ≤ 2 then y - 1 else y
  let era : Int := yAdj / 400
  let yoe : Int := yAdj - era * 400
  let mp : Int := if m > 2 then (m : Int) - 3 else (m : Int) + 9
  let doy : Int := (153 * mp + 2) / 5 + (d : Int) - 1
  let doe : Int := yoe * 365 + yoe / 4 - yoe / 100 + doy
  era * 146097 + doe - 719468

/-- Naive timestamp of the calendar fields, in microseconds since epoch. -/
def naiveTimestampUs (dt : PyDateTime) : Int :=
  (daysFromCivil dt.year dt.month dt.day * 86400
    + dt.hour * 3600 + dt.minute * 60 + dt.second) * 1000000 + dt.microsecond

/-- Instant denoted by an aware datetime (naive ones count as offset 0),
in microseconds since epoch: what Python's `<` on aware datetimes compares. -/
def utcInstantUs (dt : PyDateTime) : Int :=
  naiveTimestampUs dt - (dt.offsetSeconds.getD 0) * 1000000

/-! ## `validate_config` (`rss_generator.py` lines 199-392)

Each helper below transliterates one block of the Python function; raising
paths (`re.match` on a non-string, `.replace`/`.get` on objects lacking
them) surface as `Except.error`. -/

/-- Required channel fields (line 223). -/
def required_metadata_fields : List String :=
  ["title", "description", "link", "rss_feed_url", "language"]

/-- Lines 230-234 for a single field: missing, or present but not a
non-empty string. -/
def reqMetaFieldErr (metadata : PyVal) (field : String) : Except String (List String) := do
  let present ← pyContains metadata field
  if !present then
    pure ["Missing required metadata field: '" ++ field ++ "'"]
  else do
    let v ← pyGetItem metadata field
    let bad := match v with | PyVal.str s => pyStrip s == "" | _ => true
    pure (if bad then ["Metadata field '" ++ field ++ "' must be a non-empty string"] else [])

/-- The required-field loop (lines 230-234). -/
def reqMetaErrsAux (metadata : PyVal) : List String → Except String (List String)
  | [] => pure []
  | f :: fs => do
      let e ← reqMetaFieldErr metadata f
      let rest ← reqMetaErrsAux metadata fs
      pure (e ++ rest)

/-- Lines 236-241: owner email, resolved as `get("email") or
get("itunes_email")`, then regex-validated (which raises on a truthy
non-string). -/
def emailErrs (metadata : PyVal) : Except String (List String) := do
  let e1 ← pyGetMethod metadata "email"
  let e2 ← pyGetMethod metadata "itunes_email"
  let email_field := pyOr e1 e2
  if !(pyTruthy email_field) then
    pure ["Missing required metadata field: 'email' (or 'itunes_email')"]
  else do
    let ok ← is_valid_email email_field
    pure (if !ok then ["Invalid email format: '" ++ pyToStr email_field ++ "'"] else [])

/-- Lines 243-248: author with legacy alias. -/
def authorErrs (metadata : PyVal) : Except String (List String) := do
  let a1 ← pyGetMethod metadata "author"
  let a2 ← pyGetMethod metadata "itunes_author"
  let author_field := pyOr a1 a2
  if !(pyTruthy author_field) then
    pure ["Missing required metadata field: 'author' (or 'itunes_author')"]
  else
    let bad := match author_field with | PyVal.str s => pyStrip s == "" | _ => true
    pure (if bad then ["Author field must be a non-empty string"] else [])

/-- Lines 250-255: category with legacy alias, optional but non-empty when
truthy. -/
def categoryErrs (metadata : PyVal) : Except String (List String) := do
  let c1 ← pyGetMethod metadata "category"
  let c2 ← pyGetMethod metadata "itunes_category"
  let category_field := pyOr c1 c2
  let bad := pyTruthy category_field &&
    (match category_field with | PyVal.str s => pyStrip s == "" | _ => true)
  pure (if bad then ["Category field must be a non-empty string"] else [])

/-- URL-shaped metadata fields (line 258). -/
def url_metadata_fields : List String := ["link", "rss_feed_url", "image"]

/-- Lines 259-264 for one field. -/
def urlMetaFieldErr (metadata : PyVal) (field : String) : Except String (List String) := do
  let present ← pyContains metadata field
  if present then do
    let v ← pyGetItem metadata field
    if pyTruthy v then
      pure (if !(is_valid_url v) then
        ["Invalid URL format in metadata field '" ++ field ++ "': '" ++ pyToStr v ++ "'"]
        else [])
    else pure []
  else pure []

/-- The URL-field loop (lines 257-264). -/
def urlMetaErrsAux (metadata : PyVal) : List String → Except String (List String)
  | [] => pure []
  | f :: fs => do
      let e ← urlMetaFieldErr metadata f
      let rest ← urlMetaErrsAux metadata fs
      pure (e ++ rest)

/-- Boolean metadata fields (line 267). -/
def boolean_metadata_fields : List String :=
  ["explicit", "itunes_explicit", "use_asset_hash_as_guid"]

/-- Lines 268-270 for one field. -/
def boolMetaFieldErr (metadata : PyVal) (field : String) : Except String (List String) := do
  let present ← pyContains metadata field
  if present then do
    let v ← pyGetItem metadata field
    pure (if !(pyIsBool v) then
      ["Metadata field '" ++ field ++ "' must be a boolean (true/false)"] else [])
  else pure []

/-- The boolean-field loop (lines 266-270). -/
def boolMetaErrsAux (metadata : PyVal) : List String → Except String (List String)
  | [] => pure []
  | f :: fs => do
      let e ← boolMetaFieldErr metadata f
      let rest ← boolMetaErrsAux metadata fs
      pure (e ++ rest)

/-- Lines 272-278: `podcast_locked` accepts "yes"/"no"/True/False (Python
`in` uses `==`, under which `1 == True`). -/
def lockedErrs (metadata : PyVal) : Except String (List String) := do
  let present ← pyContains metadata "podcast_locked"
  if present then do
    let v ← pyGetItem metadata "podcast_locked"
    let okVal := pyEqStr v "yes" || pyEqStr v "no" || pyEqBool v true || pyEqBool v false
    pure (if !okVal then
      ["Metadata field 'podcast_locked' must be 'yes', 'no', true, or false"] else [])
  else pure []

/-- The whole metadata section of `validate_config` (lines 222-278), in
source order. -/
def metadataErrors (metadata : PyVal) : Except String (List String) := do
  let a ← reqMetaErrsAux metadata required_metadata_fields
  let b ← emailErrs metadata
  let c ← authorErrs metadata
  let d ← categoryErrs metadata
  let e ← urlMetaErrsAux metadata url_metadata_fields
  let f2 ← boolMetaErrsAux metadata boolean_metadata_fields
  let g ← lockedErrs metadata
  pure (a ++ b ++ c ++ d ++ e ++ f2 ++ g)

/-- Required episode fields (line 289). -/
def required_episode_fields : List String :=
  ["title", "description", "publication_date", "asset_url"]

/-- Lines 298-304 for one field of episode `i` (0-based). -/
def reqEpFieldErr (i : Nat) (ep : PyVal) (field : String) : Except String (List String) := do
  let present ← pyContains ep field
  if !present then
    pure ["Episode " ++ toString (i + 1) ++ ": Missing required field '" ++ field ++ "'"]
  else do
    let v ← pyGetItem ep field
    let bad := match v with | PyVal.str s => pyStrip s == "" | _ => true
    pure (if bad then
      ["Episode " ++ toString (i + 1) ++ ": Field '" ++ field ++ "' must be a non-empty string"]
      else [])

/-- The required-field loop of one episode (lines 297-304). -/
def reqEpErrsAux (i : Nat) (ep : PyVal) : List String → Except String (List String)
  | [] => pure []
  | f :: fs => do
      let e ← reqEpFieldErr i ep f
      let rest ← reqEpErrsAux i ep fs
      pure (e ++ rest)

/-- Lines 306-311: publication date parse check (raises off a non-string). -/
def pubDateErrs (i : Nat) (ep : PyVal) : Except String (List String) := do
  let present ← pyContains ep "publication_date"
  if present then do
    let v ← pyGetItem ep "publication_date"
    let ok ← is_valid_iso_date v
    pure (if !ok then
      ["Episode " ++ toString (i + 1) ++ ": Invalid publication_date format '" ++ pyToStr v ++
        "' (must be ISO format like '2023-01-15T10:00:00Z')"] else [])
  else pure []

/-- Lines 313-318: asset URL shape. -/
def assetUrlErrs (i : Nat) (ep : PyVal) : Except String (List String) := do
  let present ← pyContains ep "asset_url"
  if present then do
    let v ← pyGetItem ep "asset_url"
    pure (if !(is_valid_url v) then
      ["Episode " ++ toString (i + 1) ++ ": Invalid asset_url format '" ++ pyToStr v ++ "'"]
      else [])
  else pure []

/-- Lines 320-327 for one optional URL field of an episode. -/
def epUrlFieldErr (i : Nat) (ep : PyVal) (field : String) : Except String (List String) := do
  let present ← pyContains ep field
  if present then do
    let v ← pyGetItem ep field
    if pyTruthy v then
      pure (if !(is_valid_url v) then
        ["Episode " ++ toString (i + 1) ++ ": Invalid URL format in field '" ++ field ++
          "': '" ++ pyToStr v ++ "'"] else [])
    else pure []
  else pure []

/-- The optional-URL-field loop (lines 320-327). -/
def epUrlErrsAux (i : Nat) (ep : PyVal) : List String → Except String (List String)
  | [] => pure []
  | f :: fs => do
      let e ← epUrlFieldErr i ep f
      let rest ← epUrlErrsAux i ep fs
      pure (e ++ rest)

/-- Lines 329-341 for `episode` / `season`: a positive `int` (Python's
`isinstance(..., int)` admits booleans). -/
def epNumFieldErr (i : Nat) (ep : PyVal) (field : String) : Except String (List String) := do
  let present ← pyContains ep field
  if present then do
    let v ← pyGetItem ep field
    pure (if !(pyIsInt v) || pyIntVal v < 1 then
      ["Episode " ++ toString (i + 1) ++ ": Field '" ++ field ++ "' must be a positive integer"]
      else [])
  else pure []

/-- Lines 343-348: episode type constrained to full/trailer/bonus. -/
def epTypeErrs (i : Nat) (ep : PyVal) : Except String (List String) := do
  let present ← pyContains ep "episode_type"
  if present then do
    let v ← pyGetItem ep "episode_type"
    pure (if !(["full", "trailer", "bonus"].any (fun s => pyEqStr v s)) then
      ["Episode " ++ toString (i + 1) ++ ": Invalid episode_type '" ++ pyToStr v ++
        "' (must be one of: full, trailer, bonus)"] else [])
  else pure []

/-- Lines 350-356 for one boolean episode field. -/
def epBoolFieldErr (i : Nat) (ep : PyVal) (field : String) : Except String (List String) := do
  let present ← pyContains ep field
  if present then do
    let v ← pyGetItem ep field
    pure (if !(pyIsBool v) then
      ["Episode " ++ toString (i + 1) ++ ": Field '" ++ field ++
        "' must be a boolean (true/false)"] else [])
  else pure []

/-- The boolean-field loop of one episode (lines 350-356). -/
def epBoolErrsAux (i : Nat) (ep : PyVal) : List String → Except String (List String)
  | [] => pure []
  | f :: fs => do
      let e ← epBoolFieldErr i ep f
      let rest ← epBoolErrsAux i ep fs
      pure (e ++ rest)

/-- Lines 363-390 for one transcript entry (non-dict entries error and are
skipped). -/
def transcriptErr (i j : Nat) (t : PyVal) : Except String (List String) :=
  match t with
  | PyVal.dict _ => do
      let hasUrl ← pyContains t "url"
      let urlErr ←
        if !hasUrl then
          pure ["Episode " ++ toString (i + 1) ++ ": Transcript " ++ toString (j + 1) ++
            " missing required field 'url'"]
        else do
          let u ← pyGetItem t "url"
          pure (if !(is_valid_url u) then
            ["Episode " ++ toString (i + 1) ++ ": Transcript " ++ toString (j + 1) ++
              " has invalid URL format: '" ++ pyToStr u ++ "'"] else [])
      let hasType ← pyContains t "type"
      let typeErr ←
        if !hasType then
          pure ["Episode " ++ toString (i + 1) ++ ": Transcript " ++ toString (j + 1) ++
            " missing required field 'type'"]
        else do
          let ty ← pyGetItem t "type"
          let bad := match ty with | PyVal.str s => pyStrip s == "" | _ => true
          pure (if bad then
            ["Episode " ++ toString (i + 1) ++ ": Transcript " ++ toString (j + 1) ++
              " field 'type' must be a non-empty string"] else [])
      pure (urlErr ++ typeErr)
  | _ =>
      pure ["Episode " ++ toString (i + 1) ++ ": Transcript " ++ toString (j + 1) ++
        " must be a dictionary"]

/-- The transcript loop (lines 363-390). -/
def transcriptErrsAux (i : Nat) : Nat → List PyVal → Except String (List String)
  | _, [] => pure []
  | j, t :: ts => do
      let e ← transcriptErr i j t
      let rest ← transcriptErrsAux i (j + 1) ts
      pure (e ++ rest)

/-- Lines 358-390: the `transcripts` field of one episode. -/
def epTranscriptErrs (i : Nat) (ep : PyVal) : Except String (List String) := do
  let present ← pyContains ep "transcripts"
  if present then do
    let ts ← pyGetItem ep "transcripts"
    match ts with
    | PyVal.list xs => transcriptErrsAux i 0 xs
    | _ => pure ["Episode " ++ toString (i + 1) ++ ": Field 'transcripts' must be a list"]
  else pure []

/-- Lines 292-390: one episode, in source order (non-dict episodes get one
error and are skipped by `continue`). -/
def episodeErrs (i : Nat) (ep : PyVal) : Except String (List String) :=
  match ep with
  | PyVal.dict _ => do
      let a ← reqEpErrsAux i ep required_episode_fields
      let b ← pubDateErrs i ep
      let c ← assetUrlErrs i ep
      let d ← epUrlErrsAux i ep ["link", "image"]
      let e ← epNumFieldErr i ep "episode"
      let f2 ← epNumFieldErr i ep "season"
      let g ← epTypeErrs i ep
      let h2 ← epBoolErrsAux i ep ["explicit", "itunes_explicit"]
      let t ← epTranscriptErrs i ep
      pure (a ++ b ++ c ++ d ++ e ++ f2 ++ g ++ h2 ++ t)
  | _ => pure ["Episode " ++ toString (i + 1) ++ " must be a dictionary"]

/-- The episode loop (lines 292-390), `i` the 0-based `enumerate` index. -/
def episodesErrsAux (i : Nat) : List PyVal → Except String (List String)
  | [] => pure []
  | ep :: rest => do
      let e ← episodeErrs i ep
      let r ← episodesErrsAux (i + 1) rest
      pure (e ++ r)

/-- `validate_config` (lines 199-392).  The four structural failures
return `(False, errors)` immediately, mirroring the `return` statements at
lines 209, 213, 217 and 283; otherwise every check runs and the pair
`(len(errors) == 0, errors)` is returned. -/
def validate_config (config : PyVal) : Except String (Bool × List String) :=
  match config with
  | PyVal.dict kvs =>
      if (dictLookup kvs "metadata").isNone then
        Except.ok (false, ["Missing required 'metadata' section"])
      else if (dictLookup kvs "episodes").isNone then
        Except.ok (false, ["Missing required 'episodes' section"])
      else do
        let metadata := dictGetD kvs "metadata"
        let episodes := dictGetD kvs "episodes"
        let merrs ← metadataErrors metadata
        match episodes with
        | PyVal.list eps => do
            let merrs2 := merrs ++
              (if eps.length == 0 then ["At least one episode is required"] else [])
            let eerrs ← episodesErrsAux 0 eps
            let errors := merrs2 ++ eerrs
            pure (errors.length == 0, errors)
        | _ => pure (false, merrs ++ ["Episodes section must be a list"])
  | _ => Except.ok (false, ["Config must be a dictionary"])

/-! ## `format_description` (`rss_generator.py` lines 149-170)

`markdown.markdown` followed by `html.unescape` is an external collaborator
(spec §6c); the model takes its output — the unescaped HTML fragment — as
the input, as a list of code points (Python slices strings by code point). -/

/-- UTF-8 byte count of one code point. -/
def charUtf8Len (c : Char) : Nat :=
  if c.toNat < 0x80 then 1
  else if c.toNat < 0x800 then 2
  else if c.toNat < 0x10000 then 3
  else 4

/-- `len(s.encode("utf-8"))`. -/
def pyUtf8Len (l : List Char) : Nat :=
  (l.map charUtf8Len).sum

/-- `f"<![CDATA[{content}]]>"`. -/
def wrapCDATA (content : List Char) : List Char :=
  "<![CDATA[".data ++ content ++ "]]>".data

/-- Python `s.rfind(c)`: index of the last occurrence, `None` for -1. -/
def pyRfind (c : Char) : List Char → Option Nat
  | [] => none
  | x :: xs =>
      match pyRfind c xs with
      | some j => some (j + 1)
      | none => if x = c then some 0 else none

/-- `format_description` (lines 149-170) from the unescaped HTML on: wrap
in CDATA; if the wrapped UTF-8 byte length exceeds 4000, cut the content
to `4000 - len("<![CDATA[]]>")` *code points* and, when the cut content
holds a `<` with no later `>`, roll the cut back to just before that last
`<`. -/
def format_description (unescaped_html : List Char) : List Char :=
  let wrapped := wrapCDATA unescaped_html
  if pyUtf8Len wrapped > 4000 then
    let content_length := 4000 - pyUtf8Len "<![CDATA[]]>".data
    if content_length > 0 then
      let t0 := unescaped_html.take content_length
      let t1 :=
        match pyRfind '<' t0 with
        | some k => if (t0.drop k).contains '>' then t0 else t0.take k
        | none => t0
      wrapCDATA t1
    else wrapped
  else wrapped

/-- Does the fragment content end inside a tag: a `<` with no `>` after
it?  (Formalisation of the claim's "unterminated tag", measured on the
truncated inner content, where the tag-safety correction operates.) -/
def hasUnterminatedTag (l : List Char) : Bool :=
  match pyRfind '<' l with
  | some k => !((l.drop k).contains '>')
  | none => false

/-- Lines 567-569 of `generate_rss`: the text of an episode item's
`<description>` element is `format_description(episode["description"])`,
`render` standing for the external markdown-render-then-unescape step. -/
def episode_description_text (render : List Char → List Char)
    (description : List Char) : List Char :=
  format_description (render description)

/-! ## Asset metadata resolver (`rss_generator.py` lines 46-146) -/

/-- `int(float(s))`: parse a decimal literal (optional sign, digits, an
optional fractional part) and truncate toward zero.  Exact decimal model
of the float round-trip on ffprobe duration values; exponent and inf/nan
forms are out of subset.  `none` is the `ValueError` raise. -/
def pyFloatTruncInt (s : String) : Option Int :=
  let l := s.data.dropWhile pyIsSpace |>.reverse.dropWhile pyIsSpace |>.reverse
  let (neg, body) :=
    match l with
    | '-' :: rest => (true, rest)
    | '+' :: rest => (false, rest)
    | _ => (false, l)
  let intPart := body.takeWhile Char.isDigit
  let rest := body.drop intPart.length
  let fracOk :=
    match rest with
    | [] => !intPart.isEmpty
    | '.' :: fr => allDigits fr && (!intPart.isEmpty || !fr.isEmpty)
    | _ => false
  if fracOk then
    let n : Int := (digitsToNat intPart : Nat)
    some (if neg then -n else n)
  else none

/-- One duration line: `line.split("=")[1].strip('"')` then
`int(float(...))` (lines 110-111).  `none` models the uncaught raise on a
malformed value. -/
def durationLineValue (line : String) : Option Int :=
  match (pySplit line '=').get? 1 with
  | some v => pyFloatTruncInt (pyStripChars v ['"'])
  | none => none

/-- The first line of the report starting with the given prefix
(`next((line for line in lines if line.startswith(p)), None)`). -/
def findDurationLine (probe : String) (p : String) : Option String :=
  (pySplit probe '\n').find? (fun line => pyStartswith line p)

/-- `if duration_line: duration = int(float(...)) else: duration = None`,
with the raise on a malformed value. -/
def lineDurationResult : Option String → Except String (Option Int)
  | some line =>
      match durationLineValue line with
      | some n => Except.ok (some n)
      | none => Except.error "ValueError: could not convert string to float"
  | none => Except.ok none

/-- Duration extraction of the top-level `rss_generator.py` resolver
(lines 102-113): it only ever reads `streams.stream.0.duration`. -/
def duration_main (probe : String) : Except String (Option Int) :=
  lineDurationResult (findDurationLine probe "streams.stream.0.duration=")

/-- Duration extraction of the package resolver
(`podcast_rss_generator/generator.py` lines 68-84): try
`streams.stream.1.duration`, fall back to `streams.stream.0.duration`. -/
def duration_pkg (probe : String) : Except String (Option Int) :=
  let line1 := findDurationLine probe "streams.stream.1.duration="
  let line :=
    match line1 with
    | some l => some l
    | none => findDurationLine probe "streams.stream.0.duration="
  lineDurationResult line

/-- `_run_ffprobe_with_retry` (lines 52-80): up to 5 attempts, an
`ErrorReturnCode` (modelled `none`) consumes one; after the 5th failure
the function returns the empty string.  `attempts i` is the outcome of
attempt `i`. -/
def ffprobeRetryAux (attempts : Nat → Option String) : Nat → Nat → String
  | _, 0 => ""
  | i, remaining + 1 =>
      match attempts i with
      | some out => out
      | none => ffprobeRetryAux attempts (i + 1) remaining

/-- `_run_ffprobe_with_retry(url)` with `max_retries=5`. -/
def run_ffprobe_with_retry (attempts : Nat → Option String) : String :=
  ffprobeRetryAux attempts 0 5

/-- Response headers; `requests` exposes them case-insensitively. -/
def Headers := List (String × String)

/-- Case-insensitive header lookup (`response.headers.get(k)`). -/
def headersGet (hs : Headers) (k : String) : Option String :=
  ((hs : List (String × String)).find?
    (fun p => p.1.data.map Char.toLower == k.data.map Char.toLower)).map (fun p => p.2)

/-- First `md5=([^,]+)` match in a header value, the regex search restarting
after a position where `md5=` is followed directly by a comma or the end. -/
def md5Search : List Char → Option (List Char)
  | [] => none
  | c :: rest =>
      if "md5=".data.isPrefixOf (c :: rest) then
        let cap := ((c :: rest).drop 4).takeWhile (fun x => x ≠ ',')
        if !cap.isEmpty then some cap else md5Search rest
      else md5Search rest

/-- Lines 119-122: `sha256_hash = headers.get(...); if sha256_hash:`. -/
def sha256Step (headers : Headers) : Option String :=
  match headersGet headers "x-amz-checksum-sha256" with
  | some v => if v ≠ "" then some ("sha256:" ++ v) else none
  | none => none

/-- Lines 124-133: the GCS `x-goog-hash` fallback. -/
def googStep (headers : Headers) : Option String :=
  match headersGet headers "x-goog-hash" with
  | some g =>
      if g ≠ "" then
        match md5Search g.data with
        | some m => some ("md5:" ++ String.mk m)
        | none => none
      else none
  | none => none

/-- Lines 135-139: the ETag fallback, quotes and spaces stripped. -/
def etagStep (headers : Headers) : Option String :=
  let etag := pyStripChars ((headersGet headers "ETag").getD "") ['"', ' ']
  if etag ≠ "" then some ("etag:" ++ etag) else none

/-- Lines 115-139 of `get_file_info`: content-identity extraction, in
priority order sha256 checksum header, GCS composite hash `md5=` token,
entity tag stripped of quotes and spaces (each later step guarded by
`if not content_hash`). -/
def extract_content_hash (headers : Headers) : Option String :=
  let step2 : Option String :=
    match sha256Step headers with
    | some h => some h
    | none => googStep headers
  match step2 with
  | some h => some h
  | none => etagStep headers

/-- The dict `get_file_info` returns.  In the probe-failure early return
(lines 96-100) the Python dict carries no `content_hash` key; since the
serializer reads it with `.get`, that is observationally `contentHash =
none` here. -/
structure FileInfo where
  contentLength : Option String
  contentType : Option String
  duration : Option Int
  contentHash : Option String
  deriving Repr, DecidableEq

/-- `get_file_info` (lines 83-146) given the transport response headers
and the ffprobe attempt outcomes: empty probe output short-circuits with
`duration = None`, otherwise the stream-0 duration and the content hash
are extracted. -/
def get_file_info (headers : Headers) (attempts : Nat → Option String) :
    Except String FileInfo :=
  let probe := run_ffprobe_with_retry attempts
  if probe = "" then
    Except.ok ⟨headersGet headers "content-length",
      headersGet headers "content-type", none, none⟩
  else
    match duration_main probe with
    | Except.error e => Except.error e
    | Except.ok dur =>
        Except.ok ⟨headersGet headers "content-length",
          headersGet headers "content-type", dur, extract_content_hash headers⟩

/-! ## Item serialization fragments (`generate_rss`) -/

/-- Lines 571-579: the `<guid>` text — the content hash if the toggle is
on and the resolved hash is truthy, else the asset URL. -/
def item_guid (use_hash_guid : Bool) (file_info : FileInfo) (asset_url : String) : String :=
  let guid_text := asset_url
  if use_hash_guid && (match file_info.contentHash with
      | some h => h ≠ ""
      | none => false) then
    (file_info.contentHash).getD ""
  else guid_text

/-- Lines 599-602: `<itunes:duration>` is created only when the duration
is not None; `some t` is an emitted element with text `t`. -/
def item_duration_element (file_info : FileInfo) : Option String :=
  match file_info.duration with
  | some d => some (toString d)
  | none => none

/-! ## `_escape_cdata` (lines 20-31) -/

/-- The patched ElementTree CDATA escape: replace `&` by `&amp;` when
present, and never touch `<` or `>`. -/
def escape_cdata (text : String) : String :=
  if text.data.contains '&' then pyReplace text '&' "&amp;" else text

/-! ## Episode scheduler (`generate_rss` lines 537-550) -/

/-- The eligibility gate: replace `Z`, `fromisoformat`, treat a naive
timestamp as UTC, include iff strictly before now (`now` in microseconds
since epoch, UTC).  The `Except.error` is the `ValueError` raise of
`fromisoformat`. -/
def isEligible (pub_date : String) (nowUs : Int) : Except String Bool :=
  let compatible := pyReplace pub_date 'Z' "+00:00"
  match pyFromisoformat compatible with
  | none => Except.error "ValueError: Invalid isoformat string"
  | some dt =>
      let aware :=
        if dt.offsetSeconds.isNone then { dt with offsetSeconds := some 0 } else dt
      Except.ok (decide (utcInstantUs aware < nowUs))

/-! ## Channel GUID (`generate_rss` lines 517-529)

`uuid.uuid5(uuid.NAMESPACE_URL, feed_url)` is deterministic namespace
hashing: SHA-1 over namespace bytes plus the UTF-8 name, with version 5
and variant bits patched in.  SHA-1 is implemented below over byte lists
(32-bit words as `Nat` reduced `% 2^32`). -/

/-- 2^32. -/
def pow32 : Nat := 4294967296

/-- Rotate a 32-bit word left by `k`. -/
def rotl32 (x k : Nat) : Nat :=
  (((x <<< k) % pow32) ||| (x >>> (32 - k)))

/-- Big-endian bytes of `n`, `k` bytes wide. -/
def natToBytesBE (n : Nat) : Nat → List Nat
  | 0 => []
  | k + 1 => natToBytesBE (n / 256) k ++ [n % 256]

/-- UTF-8 encoding of one code point, as byte values. -/
def utf8EncodeCharBytes (c : Char) : List Nat :=
  let n := c.toNat
  if n < 0x80 then [n]
  else if n < 0x800 then [0xC0 + n / 64, 0x80 + n % 64]
  else if n < 0x10000 then
    [0xE0 + n / 4096, 0x80 + (n / 64) % 64, 0x80 + n % 64]
  else
    [0xF0 + n / 262144, 0x80 + (n / 4096) % 64, 0x80 + (n / 64) % 64, 0x80 + n % 64]

/-- UTF-8 bytes of a string. -/
def utf8Bytes (s : String) : List Nat :=
  s.data.flatMap utf8EncodeCharBytes

/-- SHA-1 padding: `0x80`, zeros to 56 mod 64, then the 64-bit bit length. -/
def sha1Pad (msg : List Nat) : List Nat :=
  let padZeros := (119 - msg.length % 64) % 64
  msg ++ [0x80] ++ List.replicate padZeros 0 ++ natToBytesBE (msg.length * 8) 8

/-- Split into 64-byte chunks. -/
def chunks64 : List Nat → List (List Nat)
  | [] => []
  | l@(_ :: _) => l.take 64 :: chunks64 (l.drop 64)
  termination_by l => l.length
  decreasing_by
    simp_all [List.length_drop]
    omega

/-- Big-endian 32-bit words from bytes. -/
def bytesToWords : List Nat → List Nat
  | b0 :: b1 :: b2 :: b3 :: rest =>
      (((b0 * 256 + b1) * 256 + b2) * 256 + b3) :: bytesToWords rest
  | _ => []

/-- Message-schedule extension: append words 16..79. -/
def sha1Extend : Nat → List Nat → List Nat
  | 0, w => w
  | k + 1, w =>
      let i := w.length
      let x := (w.getD (i - 3) 0) ^^^ (w.getD (i - 8) 0) ^^^
        (w.getD (i - 14) 0) ^^^ (w.getD (i - 16) 0)
      sha1Extend k (w ++ [rotl32 x 1])

/-- The round function and constant for round `t`. -/
def sha1FK (t b c d : Nat) : Nat × Nat :=
  if t < 20 then ((b &&& c) ||| ((pow32 - 1 - b) &&& d), 0x5A827999)
  else if t < 40 then (b ^^^ c ^^^ d, 0x6ED9EBA1)
  else if t < 60 then ((b &&& c) ||| (b &&& d) ||| (c &&& d), 0x8F1BBCDC)
  else (b ^^^ c ^^^ d, 0xCA62C1D6)

/-- One SHA-1 round. -/
def sha1Round (st : Nat × Nat × Nat × Nat × Nat) (tw : Nat × Nat) :
    Nat × Nat × Nat × Nat × Nat :=
  let (a, b, c, d, e) := st
  let (t, wt) := tw
  let (f, k) := sha1FK t b c d
  let temp := (rotl32 a 5 + f + e + k + wt) % pow32
  (temp, a, rotl32 b 30, c, d)

/-- Process one 64-byte chunk into the running state. -/
def sha1Chunk (h : Nat × Nat × Nat × Nat × Nat) (chunk : List Nat) :
    Nat × Nat × Nat × Nat × Nat :=
  let w := sha1Extend 64 (bytesToWords chunk)
  let (h0, h1, h2, h3, h4) := h
  let (a, b, c, d, e) :=
    ((List.range 80).zip w).foldl sha1Round (h0, h1, h2, h3, h4)
  ((h0 + a) % pow32, (h1 + b) % pow32, (h2 + c) % pow32,
    (h3 + d) % pow32, (h4 + e) % pow32)

/-- SHA-1 digest (20 bytes) of a byte list. -/
def sha1 (msg : List Nat) : List Nat :=
  let init : Nat × Nat × Nat × Nat × Nat :=
    (0x67452301, 0xEFCDAB89, 0x98BADCFE, 0x10325476, 0xC3D2E1F0)
  let (h0, h1, h2, h3, h4) := (chunks64 (sha1Pad msg)).foldl sha1Chunk init
  natToBytesBE h0 4 ++ natToBytesBE h1 4 ++ natToBytesBE h2 4 ++
    natToBytesBE h3 4 ++ natToBytesBE h4 4

/-- Lowercase hex digit. -/
def hexDigit (n : Nat) : Char :=
  if n < 10 then Char.ofNat ('0'.toNat + n) else Char.ofNat ('a'.toNat + n - 10)

/-- Two lowercase hex digits of a byte. -/
def hexByte (n : Nat) : List Char :=
  [hexDigit (n / 16), hexDigit (n % 16)]

/-- `uuid.NAMESPACE_URL` = 6ba7b811-9dad-11d1-80b4-00c04fd430c8. -/
def NAMESPACE_URL_BYTES : List Nat :=
  [0x6b, 0xa7, 0xb8, 0x11, 0x9d, 0xad, 0x11, 0xd1,
   0x80, 0xb4, 0x00, 0xc0, 0x4f, 0xd4, 0x30, 0xc8]

/-- `str(uuid.uuid5(uuid.NAMESPACE_URL, name))`: SHA-1 of namespace bytes
plus UTF-8 name, first 16 bytes, version nibble set to 5 and variant bits
to 10, rendered 8-4-4-4-12 lowercase hex. -/
def uuid5_url (name : String) : String :=
  let digest := (sha1 (NAMESPACE_URL_BYTES ++ utf8Bytes name)).take 16
  let b6 := (digest.getD 6 0) % 16 + 0x50
  let b8 := (digest.getD 8 0) % 64 + 0x80
  let bytes := (digest.set 6 b6).set 8 b8
  let hex := bytes.flatMap hexByte
  String.mk (hex.take 8 ++ ['-'] ++ (hex.drop 8).take 4 ++ ['-'] ++
    (hex.drop 12).take 4 ++ ['-'] ++ (hex.drop 16).take 4 ++ ['-'] ++ hex.drop 20)

/-- Lines 517-529 of `generate_rss`: prefer a truthy `podcast_guid` from
the config, otherwise generate the UUID5 of the feed URL.  (Config values
are strings here; `get_meta` returns None for a missing key and `if not
guid_val` also rejects an empty string.) -/
def channel_guid (podcast_guid : Option String) (rss_feed_url : String) : String :=
  match podcast_guid with
  | some s => if s = "" then uuid5_url rss_feed_url else s
  | none => uuid5_url rss_feed_url

/-! ## Helper lemmas -/

theorem except_bind_ok {ε α β : Type} (a : α) (f : α → Except ε β) :
    Except.ok a >>= f = f a := rfl

theorem except_bind_error {ε α β : Type} (e : ε) (f : α → Except ε β) :
    (Except.error e : Except ε α) >>= f = Except.error e := rfl

theorem except_pure_eq {ε α : Type} (a : α) :
    (pure a : Except ε α) = Except.ok a := rfl

/-- Replacing `&` by `&amp;` is a per-character substitution. -/
theorem pyReplaceL_amp (l : List Char) :
    pyReplaceL '&' "&amp;".data l =
      l.flatMap (fun c => if c = '&' then "&amp;".data else [c]) := by
  induction l with
  | nil => simp [pyReplaceL]
  | cons c rest ih =>
      rw [pyReplaceL]
      by_cases hc : c = '&' <;> simp [hc, ih]

/-- A list with no `&` is unchanged by the per-character substitution. -/
theorem flatMap_amp_id (l : List Char) (h : l.contains '&' = false) :
    l.flatMap (fun c => if c = '&' then "&amp;".data else [c]) = l := by
  induction l with
  | nil => simp
  | cons c rest ih =>
      simp only [List.contains_cons, Bool.or_eq_false_iff] at h
      have hc : ¬ c = '&' := by
        intro hcc
        subst hcc
        simp at h
      simp [hc, ih h.2]

/-! ## Claim C8 -/

/-- C8: for every text node run through the CDATA-style escape
(`_escape_cdata`, lines 20-31), `<` and `>` pass through unescaped while
every literal `&` becomes `&amp;` — the output is exactly the
per-character map sending `&` to `&amp;` and every other character
(including `<` and `>`) to itself. -/
theorem escape_cdata_per_char (s : String) :
    escape_cdata s =
      String.mk (s.data.flatMap (fun c => if c = '&' then "&amp;".data else [c])) := by
  unfold escape_cdata
  by_cases h : s.data.contains '&'
  · rw [if_pos h]
    show String.mk (pyReplaceL '&' "&amp;".data s.data) = _
    rw [pyReplaceL_amp]
  · rw [if_neg h, flatMap_amp_id s.data (by simpa using h)]

/-! ## Claim C9 -/

/-- C9: the channel-level feed GUID (lines 517-529) is, in the absence of
a truthy `podcast_guid` in the config, the deterministic namespace hash
(UUID5) of the feed URL — a pure function of the feed URL, so repeated
runs on an unchanged config agree — and a provided `podcast_guid` is
emitted verbatim. -/
theorem channel_guid_deterministic :
    (∀ (url : String) (pg : Option String), (pg = none ∨ pg = some "") →
      channel_guid pg url = uuid5_url url) ∧
    (∀ (url s : String), s ≠ "" → channel_guid (some s) url = s) := by
  constructor
  · intro url pg hpg
    rcases hpg with h | h <;> subst h <;> simp [channel_guid]
  · intro url s hs
    simp [channel_guid, hs]

/-- Witness for C9 at concrete inputs: a generated GUID equals the UUID5
of the feed URL, and an explicit GUID passes through verbatim. -/
theorem channel_guid_deterministic_witness :
    channel_guid none "https://example.com/feed.xml" =
      uuid5_url "https://example.com/feed.xml" ∧
    channel_guid (some "abc-123") "https://example.com/feed.xml" = "abc-123" :=
  ⟨channel_guid_deterministic.1 "https://example.com/feed.xml" none (Or.inl rfl),
   channel_guid_deterministic.2 "https://example.com/feed.xml" "abc-123" (by decide)⟩

/-! ## Claim C6 -/

/-- C6: the emitted `<guid>` (lines 571-579) is the resolver's
content-identity hint exactly when the `use_asset_hash_as_guid` toggle is
on and the resolved `FileInfo` carries a (truthy) hint; with the toggle
off, or without a hint, it is the episode's asset URL verbatim.  Every
hint `extract_content_hash` can produce has `<scheme>:<value>` form. -/
theorem item_guid_strategy :
    (∀ (fi : FileInfo) (url h : String),
        fi.contentHash = some h → h ≠ "" → item_guid true fi url = h) ∧
    (∀ (fi : FileInfo) (url : String), item_guid false fi url = url) ∧
    (∀ (u : Bool) (fi : FileInfo) (url : String),
        fi.contentHash = none → item_guid u fi url = url) ∧
    (∀ (hs : Headers) (h : String), extract_content_hash hs = some h →
        ∃ v, h = "sha256:" ++ v ∨ h = "md5:" ++ v ∨ h = "etag:" ++ v) := by
  refine ⟨?_, ?_, ?_, ?_⟩
  · intro fi url h hh hne
    simp [item_guid, hh, hne]
  · intro fi url
    simp [item_guid]
  · intro u fi url hh
    simp [item_guid, hh]
  · intro hs h hh
    have sha_shape : ∀ h2, sha256Step hs = some h2 → ∃ v, h2 = "sha256:" ++ v := by
      intro h2 hh2
      unfold sha256Step at hh2
      split at hh2
      · split at hh2
        · exact ⟨_, (Option.some_injective _ hh2).symm⟩
        · exact absurd hh2 (by simp)
      · exact absurd hh2 (by simp)
    have goog_shape : ∀ h2, googStep hs = some h2 → ∃ v, h2 = "md5:" ++ v := by
      intro h2 hh2
      unfold googStep at hh2
      split at hh2
      · split at hh2
        · split at hh2
          · exact ⟨_, (Option.some_injective _ hh2).symm⟩
          · exact absurd hh2 (by simp)
        · exact absurd hh2 (by simp)
      · exact absurd hh2 (by simp)
    have etag_shape : ∀ h2, etagStep hs = some h2 → ∃ v, h2 = "etag:" ++ v := by
      intro h2 hh2
      simp only [etagStep] at hh2
      split at hh2
      · exact ⟨_, (Option.some_injective _ hh2).symm⟩
      · exact absurd hh2 (by simp)
    cases hsha : sha256Step hs with
    | some v =>
        have hx : extract_content_hash hs = some v := by
          simp [extract_content_hash, hsha]
        rw [hx] at hh
        obtain ⟨w, hw⟩ := sha_shape v hsha
        exact ⟨w, Or.inl (by rw [← (Option.some_injective _ hh), hw])⟩
    | none =>
        cases hgoog : googStep hs with
        | some v =>
            have hx : extract_content_hash hs = some v := by
              simp [extract_content_hash, hsha, hgoog]
            rw [hx] at hh
            obtain ⟨w, hw⟩ := goog_shape v hgoog
            exact ⟨w, Or.inr (Or.inl (by rw [← (Option.some_injective _ hh), hw]))⟩
        | none =>
            have hx : extract_content_hash hs = etagStep hs := by
              simp [extract_content_hash, hsha, hgoog]
            rw [hx] at hh
            obtain ⟨w, hw⟩ := etag_shape _ hh
            exact ⟨w, Or.inr (Or.inr hw)⟩

/-- Witness for C6: a concrete hint wins with the toggle on, and the URL
is used with the toggle off or the hint missing. -/
theorem item_guid_strategy_witness :
    item_guid true ⟨none, none, none, some "sha256:x"⟩ "https://e.com/a.mp4" = "sha256:x" ∧
    item_guid false ⟨none, none, none, some "sha256:x"⟩ "https://e.com/a.mp4" =
      "https://e.com/a.mp4" ∧
    item_guid true ⟨none, none, none, none⟩ "https://e.com/a.mp4" = "https://e.com/a.mp4" :=
  ⟨item_guid_strategy.1 ⟨none, none, none, some "sha256:x"⟩ "https://e.com/a.mp4"
      "sha256:x" rfl (by decide),
   item_guid_strategy.2.1 ⟨none, none, none, some "sha256:x"⟩ "https://e.com/a.mp4",
   item_guid_strategy.2.2.1 true ⟨none, none, none, none⟩ "https://e.com/a.mp4" rfl⟩

/-! ## Claim C4 -/

/-- A failing attempt advances the retry loop. -/
theorem ffprobeRetryAux_step (attempts : Nat → Option String) (i r : Nat)
    (h : attempts i = none) :
    ffprobeRetryAux attempts i (r + 1) = ffprobeRetryAux attempts (i + 1) r := by
  simp only [ffprobeRetryAux, h]

/-- When all 5 attempts fail, `_run_ffprobe_with_retry` returns `""`. -/
theorem run_ffprobe_all_fail (attempts : Nat → Option String)
    (h : ∀ i, i < 5 → attempts i = none) : run_ffprobe_with_retry attempts = "" := by
  unfold run_ffprobe_with_retry
  rw [show (5 : Nat) = 4 + 1 from rfl, ffprobeRetryAux_step attempts 0 4 (h 0 (by omega)),
    show (4 : Nat) = 3 + 1 from rfl, ffprobeRetryAux_step attempts 1 3 (h 1 (by omega)),
    show (3 : Nat) = 2 + 1 from rfl, ffprobeRetryAux_step attempts 2 2 (h 2 (by omega)),
    show (2 : Nat) = 1 + 1 from rfl, ffprobeRetryAux_step attempts 3 1 (h 3 (by omega)),
    show (1 : Nat) = 0 + 1 from rfl, ffprobeRetryAux_step attempts 4 0 (h 4 (by omega))]
  rfl

/-- C4: when the media probe fails on all 5 attempts (while the transport
HEAD succeeded and supplied `headers`), `get_file_info` still returns the
transport's content-length and content-type with `duration = None` (lines
94-100), and the serializer (lines 599-602) emits no `itunes:duration`
element at all for that item. -/
theorem get_file_info_probe_exhausted (headers : Headers)
    (attempts : Nat → Option String) (h : ∀ i, i < 5 → attempts i = none) :
    ∃ fi : FileInfo,
      get_file_info headers attempts = Except.ok fi ∧
      fi.contentLength = headersGet headers "content-length" ∧
      fi.contentType = headersGet headers "content-type" ∧
      fi.duration = none ∧
      item_duration_element fi = none := by
  refine ⟨⟨headersGet headers "content-length", headersGet headers "content-type",
    none, none⟩, ?_, rfl, rfl, rfl, rfl⟩
  unfold get_file_info
  rw [run_ffprobe_all_fail attempts h]
  rfl

/-- Witness for C4 at a concrete header map and the always-failing probe. -/
theorem get_file_info_probe_exhausted_witness :
    ∃ fi : FileInfo,
      get_file_info [("content-length", "123"), ("content-type", "video/mp4")]
        (fun _ => none) = Except.ok fi ∧
      fi.contentLength =
        headersGet [("content-length", "123"), ("content-type", "video/mp4")]
          "content-length" ∧
      fi.contentType =
        headersGet [("content-length", "123"), ("content-type", "video/mp4")]
          "content-type" ∧
      fi.duration = none ∧
      item_duration_element fi = none :=
  get_file_info_probe_exhausted
    [("content-length", "123"), ("content-type", "video/mp4")]
    (fun _ => none) (fun _ _ => rfl)

/-! ## Claim C5 -/

/-- A successful `md5=` search needs a nonempty subject. -/
theorem md5Search_ne_nil (l : List Char) (m : List Char) (h : md5Search l = some m) :
    l ≠ [] := by
  intro hl
  subst hl
  simp [md5Search] at h

/-- C5: content-identity extraction follows strict priority with first
match winning — a truthy sha256 checksum header gives `sha256:<value>`
regardless of the other headers; otherwise an `md5=` token in the
object-storage composite hash header gives `md5:<value>`; otherwise a
nonempty quote/space-stripped ETag gives `etag:<value>`; with none of the
three, no hint.  Includes the two concrete instances of the claim. -/
theorem content_hash_priority :
    (∀ (hs : Headers) (v : String),
        headersGet hs "x-amz-checksum-sha256" = some v → v ≠ "" →
        extract_content_hash hs = some ("sha256:" ++ v)) ∧
    (∀ (hs : Headers) (g : String) (m : List Char),
        (headersGet hs "x-amz-checksum-sha256" = none ∨
          headersGet hs "x-amz-checksum-sha256" = some "") →
        headersGet hs "x-goog-hash" = some g →
        md5Search g.data = some m →
        extract_content_hash hs = some ("md5:" ++ String.mk m)) ∧
    (∀ (hs : Headers),
        (headersGet hs "x-amz-checksum-sha256" = none ∨
          headersGet hs "x-amz-checksum-sha256" = some "") →
        (headersGet hs "x-goog-hash" = none ∨ headersGet hs "x-goog-hash" = some "" ∨
          (∃ g, headersGet hs "x-goog-hash" = some g ∧ md5Search g.data = none)) →
        (pyStripChars ((headersGet hs "ETag").getD "") ['"', ' '] ≠ "" →
          extract_content_hash hs =
            some ("etag:" ++ pyStripChars ((headersGet hs "ETag").getD "") ['"', ' '])) ∧
        (pyStripChars ((headersGet hs "ETag").getD "") ['"', ' '] = "" →
          extract_content_hash hs = none)) ∧
    extract_content_hash [("x-amz-checksum-sha256", "h1"), ("ETag", "\"abc\"")] =
      some "sha256:h1" ∧
    extract_content_hash [("ETag", "\"abc\"")] = some "etag:abc" := by
  have sha_falsy : ∀ (hs : Headers),
      (headersGet hs "x-amz-checksum-sha256" = none ∨
        headersGet hs "x-amz-checksum-sha256" = some "") → sha256Step hs = none := by
    intro hs h
    rcases h with h | h <;> simp [sha256Step, h]
  have goog_falsy : ∀ (hs : Headers),
      (headersGet hs "x-goog-hash" = none ∨ headersGet hs "x-goog-hash" = some "" ∨
        (∃ g, headersGet hs "x-goog-hash" = some g ∧ md5Search g.data = none)) →
      googStep hs = none := by
    intro hs h
    rcases h with h | h | ⟨g, hg, hm⟩
    · simp [googStep, h]
    · simp [googStep, h]
    · by_cases hge : g = ""
      · simp [googStep, hg, hge]
      · simp [googStep, hg, hge, hm]
  refine ⟨?_, ?_, ?_, ?_, ?_⟩
  · intro hs v hv hne
    simp [extract_content_hash, sha256Step, hv, hne]
  · intro hs g m hsha hg hm
    have hgne : g ≠ "" := by
      intro hge
      exact md5Search_ne_nil g.data m hm (by rw [hge])
    simp [extract_content_hash, sha_falsy hs hsha, googStep, hg, hgne, hm]
  · intro hs hsha hgoog
    constructor
    · intro hne
      simp [extract_content_hash, sha_falsy hs hsha, goog_falsy hs hgoog, etagStep, hne]
    · intro he
      simp [extract_content_hash, sha_falsy hs hsha, goog_falsy hs hgoog, etagStep, he]
  · rfl
  · rfl

/-- Witness for C5: the priority cases applied at concrete header maps. -/
theorem content_hash_priority_witness :
    extract_content_hash [("x-amz-checksum-sha256", "deadbeef"), ("ETag", "\"z\"")] =
      some "sha256:deadbeef" ∧
    extract_content_hash [("x-goog-hash", "crc32c=AAAA==,md5=mm==")] =
      some ("md5:" ++ String.mk "mm==".data) ∧
    extract_content_hash [] = none :=
  ⟨content_hash_priority.1 _ "deadbeef" rfl (by decide),
   content_hash_priority.2.1 _ "crc32c=AAAA==,md5=mm==" "mm==".data (Or.inl rfl) rfl rfl,
   (content_hash_priority.2.2.1 [] (Or.inl rfl) (Or.inl rfl)).2 rfl⟩

/-! ## Claim C3 -/

/-- C3 amended: the package resolver
(`podcast_rss_generator/generator.py` lines 68-84) prefers the
`streams.stream.1.duration` line and falls back to
`streams.stream.0.duration`, whereas the top-level `rss_generator.py`
resolver (lines 102-113) only ever reads the stream-0 line; in both, the
value is parsed as decimal seconds and truncated toward zero. -/
theorem duration_stream_preference :
    (∀ (probe l : String),
        findDurationLine probe "streams.stream.1.duration=" = some l →
        duration_pkg probe = lineDurationResult (some l)) ∧
    (∀ (probe l : String),
        findDurationLine probe "streams.stream.1.duration=" = none →
        findDurationLine probe "streams.stream.0.duration=" = some l →
        duration_pkg probe = lineDurationResult (some l)) ∧
    (∀ (probe l : String),
        findDurationLine probe "streams.stream.0.duration=" = some l →
        duration_main probe = lineDurationResult (some l)) ∧
    pyFloatTruncInt "20.9" = some 20 ∧ pyFloatTruncInt "10.5" = some 10 := by
  refine ⟨?_, ?_, ?_, rfl, rfl⟩
  · intro probe l h1
    simp [duration_pkg, h1]
  · intro probe l h1 h0
    simp [duration_pkg, h1, h0]
  · intro probe l h0
    simp [duration_main, h0]

/-- Witness for C3's amended statement at a concrete two-stream report
(stream 0 lasting 10.5 s, stream 1 lasting 20.9 s): the package resolver
takes stream 1's 20, the top-level resolver takes stream 0's 10. -/
theorem duration_stream_preference_witness :
    duration_pkg
        "streams.stream.0.duration=\"10.5\"\nstreams.stream.1.duration=\"20.9\"" =
      lineDurationResult (some "streams.stream.1.duration=\"20.9\"") ∧
    duration_main
        "streams.stream.0.duration=\"10.5\"\nstreams.stream.1.duration=\"20.9\"" =
      lineDurationResult (some "streams.stream.0.duration=\"10.5\"") ∧
    lineDurationResult (some "streams.stream.1.duration=\"20.9\"") =
      Except.ok (some 20) ∧
    lineDurationResult (some "streams.stream.0.duration=\"10.5\"") =
      Except.ok (some 10) :=
  ⟨duration_stream_preference.1 _ "streams.stream.1.duration=\"20.9\"" (by decide),
   duration_stream_preference.2.2.1 _ "streams.stream.0.duration=\"10.5\"" (by decide),
   rfl, rfl⟩

/-- Counterexample to C3 as stated: on a report listing durations for both
stream 0 (10.5 s) and stream 1 (20.9 s), the `rss_generator.py` resolver
extracts 10 — stream 0's duration — not stream 1's 20. -/
theorem duration_stream_claim_counterexample :
    duration_main
        "streams.stream.0.duration=\"10.5\"\nstreams.stream.1.duration=\"20.9\"" =
      Except.ok (some 10) ∧
    durationLineValue "streams.stream.1.duration=\"20.9\"" = some 20 ∧
    (some (10 : Int)) ≠ some (20 : Int) := by
  refine ⟨rfl, rfl, by decide⟩

/-! ## Claim C7 -/

/-- C7: the scheduler gate (lines 537-550) includes an episode exactly
when its publication instant is strictly before `now`; a timezone-naive
timestamp is first tagged UTC, so the comparison is always between
instants (never a naive/aware raise or misorder).  With
`now = 2024-06-01T00:00:00Z` (1717200000000000 µs), `2024-06-02T00:00:00Z`
is excluded and the offset-less `2024-05-31T23:59:59` is included. -/
theorem episode_eligibility :
    (∀ (pub : String) (nowUs : Int) (dt : PyDateTime),
        pyFromisoformat (pyReplace pub 'Z' "+00:00") = some dt →
        isEligible pub nowUs = Except.ok (decide (utcInstantUs dt < nowUs))) ∧
    isEligible "2024-06-02T00:00:00Z" 1717200000000000 = Except.ok false ∧
    isEligible "2024-05-31T23:59:59" 1717200000000000 = Except.ok true := by
  refine ⟨?_, by rfl, by rfl⟩
  intro pub nowUs dt hp
  simp only [isEligible, hp]
  cases hoff : dt.offsetSeconds with
  | some o => simp [hoff]
  | none => simp [hoff, utcInstantUs, naiveTimestampUs]

/-- Witness for C7's universal part at a concrete parseable timestamp. -/
theorem episode_eligibility_witness :
    isEligible "2030-01-01T00:00:00Z" 1717200000000000 =
      Except.ok (decide (utcInstantUs ⟨2030, 1, 1, 0, 0, 0, 0, some 0⟩ <
        1717200000000000)) :=
  episode_eligibility.1 "2030-01-01T00:00:00Z" 1717200000000000
    ⟨2030, 1, 1, 0, 0, 0, 0, some 0⟩ (by rfl)

/-! ## Claim C1 -/

theorem pyUtf8Len_append (a b : List Char) :
    pyUtf8Len (a ++ b) = pyUtf8Len a + pyUtf8Len b := by
  simp [pyUtf8Len]

theorem pyUtf8Len_replicate (n : Nat) (c : Char) :
    pyUtf8Len (List.replicate n c) = n * charUtf8Len c := by
  induction n with
  | zero => simp [pyUtf8Len]
  | succ k ih =>
      simp only [List.replicate_succ, pyUtf8Len, List.map_cons, List.sum_cons] at *
      rw [ih]
      ring

theorem pyRfind_append_some (c : Char) (xs ys : List Char) (j : Nat)
    (h : pyRfind c ys = some j) :
    pyRfind c (xs ++ ys) = some (xs.length + j) := by
  induction xs with
  | nil => simp [h]
  | cons x xt ih =>
      simp only [List.cons_append, pyRfind, List.append_eq, ih]
      exact congrArg some (by simp [List.length_cons]; omega)

theorem pyRfind_append_none (c : Char) (xs ys : List Char)
    (h : pyRfind c ys = none) :
    pyRfind c (xs ++ ys) = pyRfind c xs := by
  induction xs with
  | nil => simpa using h
  | cons x xt ih => simp only [List.cons_append, pyRfind, List.append_eq, ih]

theorem pyRfind_none_of_not_mem (c : Char) (l : List Char) (h : c ∉ l) :
    pyRfind c l = none := by
  induction l with
  | nil => rfl
  | cons x xt ih =>
      simp only [List.mem_cons, not_or] at h
      simp only [pyRfind, ih h.2]
      rw [if_neg (fun hx => h.1 hx.symm)]

/-- Over the byte budget, `format_description` wraps the character-level
truncation with the single tag rollback. -/
theorem format_description_eq_of_over (html : List Char)
    (h : pyUtf8Len (wrapCDATA html) > 4000) :
    format_description html =
      wrapCDATA (match pyRfind '<' (html.take 3988) with
        | some k =>
            if ((html.take 3988).drop k).contains '>' then html.take 3988
            else (html.take 3988).take k
        | none => html.take 3988) := by
  simp only [format_description]
  rw [if_pos h]
  have h12 : 4000 - pyUtf8Len "<![CDATA[]]>".data = 3988 := rfl
  rw [h12]
  rw [if_pos (show (3988 : Nat) > 0 by norm_num)]

/-- Shared helper: over the byte budget the result wraps a prefix of the
input of at most 3988 characters. -/
theorem format_description_over_budget (html : List Char)
    (h : pyUtf8Len (wrapCDATA html) > 4000) :
    ∃ t, t <+: html ∧ t.length ≤ 3988 ∧ format_description html = wrapCDATA t := by
  have key := format_description_eq_of_over html h
  have hlen0 : (html.take 3988).length ≤ 3988 := by
    rw [List.length_take]
    exact min_le_left _ _
  cases hr : pyRfind '<' (html.take 3988) with
  | none =>
      refine ⟨html.take 3988, List.take_prefix _ _, hlen0, ?_⟩
      rw [key]
      simp only [hr]
  | some k =>
      by_cases hc : ((html.take 3988).drop k).contains '>'
      · refine ⟨html.take 3988, List.take_prefix _ _, hlen0, ?_⟩
        rw [key]
        simp only [hr]
        rw [if_pos hc]
      · refine ⟨(html.take 3988).take k,
          (List.take_prefix _ _).trans (List.take_prefix _ _), ?_, ?_⟩
        · calc ((html.take 3988).take k).length ≤ (html.take 3988).length :=
                by rw [List.length_take]; exact min_le_right _ _
            _ ≤ 3988 := hlen0
        · rw [key]
          simp only [hr]
          rw [if_neg hc]

/-- A rendered HTML fragment of 1400 copies of `€` (3 UTF-8 bytes each, 1
code point each): 4200 content bytes but only 1400 characters. -/
def c1HtmlMulti : List Char := List.replicate 1400 '€'

/-- A rendered ASCII HTML fragment whose character-level cut at 3988 lands
just after `<b<c`, so the single rollback still leaves `<b` open. -/
def c1HtmlTag : List Char :=
  List.replicate 3984 'a' ++ "<b<c".data ++ List.replicate 100 'd'

theorem c1HtmlMulti_wrapped_bytes : pyUtf8Len (wrapCDATA c1HtmlMulti) = 4212 := by
  simp only [wrapCDATA, c1HtmlMulti, pyUtf8Len_append, pyUtf8Len_replicate]
  rfl

theorem c1HtmlTag_wrapped_bytes : pyUtf8Len (wrapCDATA c1HtmlTag) = 4100 := by
  simp only [wrapCDATA, c1HtmlTag, pyUtf8Len_append, pyUtf8Len_replicate]
  rfl

theorem c1HtmlMulti_format : format_description c1HtmlMulti = wrapCDATA c1HtmlMulti := by
  have h := format_description_eq_of_over c1HtmlMulti
    (by rw [c1HtmlMulti_wrapped_bytes]; norm_num)
  have htake : c1HtmlMulti.take 3988 = c1HtmlMulti := by
    apply List.take_of_length_le
    rw [show c1HtmlMulti.length = (List.replicate 1400 '\u20AC').length from rfl,
      List.length_replicate]
    norm_num
  have hnf : pyRfind '<' c1HtmlMulti = none := by
    apply pyRfind_none_of_not_mem
    intro hm
    have := List.eq_of_mem_replicate hm
    exact absurd this (by decide)
  rw [h, htake]
  simp only [hnf]

theorem c1HtmlTag_take :
    c1HtmlTag.take 3988 = List.replicate 3984 'a' ++ "<b<c".data := by
  have hlen : (List.replicate 3984 'a' ++ "<b<c".data).length = 3988 := by
    rw [List.length_append, List.length_replicate]
    rfl
  show List.take 3988 ((List.replicate 3984 'a' ++ "<b<c".data) ++ List.replicate 100 'd') =
    List.replicate 3984 'a' ++ "<b<c".data
  rw [List.take_append_eq_append_take, hlen,
    List.take_of_length_le (le_of_eq hlen),
    show (3988 - 3988 : Nat) = 0 from rfl, List.take_zero, List.append_nil]

theorem c1HtmlTag_format :
    format_description c1HtmlTag = wrapCDATA (List.replicate 3984 'a' ++ "<b".data) := by
  have h := format_description_eq_of_over c1HtmlTag
    (by rw [c1HtmlTag_wrapped_bytes]; norm_num)
  rw [h, c1HtmlTag_take]
  have hrf : pyRfind '<' (List.replicate 3984 'a' ++ "<b<c".data) = some 3986 := by
    have := pyRfind_append_some '<' (List.replicate 3984 'a') "<b<c".data 2 (by rfl)
    rw [List.length_replicate] at this
    exact this
  simp only [hrf]
  have hdrop : (List.replicate 3984 'a' ++ "<b<c".data).drop 3986 = "<c".data := by
    rw [List.drop_append_eq_append_drop,
      List.drop_eq_nil_of_le (by rw [List.length_replicate]; norm_num),
      List.length_replicate]
    rfl
  rw [hdrop]
  rw [if_neg (by decide)]
  have htk : (List.replicate 3984 'a' ++ "<b<c".data).take 3986 =
      List.replicate 3984 'a' ++ "<b".data := by
    rw [List.take_append_eq_append_take,
      List.take_of_length_le (by rw [List.length_replicate]; norm_num),
      List.length_replicate]
    rfl
  rw [htk]

/-- Counterexample to C1 as stated: (i) on multi-byte content the
"truncated" output still exceeds 4000 UTF-8 bytes (the cut is by
characters, not bytes); (ii) on `c1HtmlTag` the emitted content still
ends inside the unterminated `<b` tag after the single rollback; (iii)
episode descriptions (lines 567-569) run through the same truncating
formatter, here visibly shortened. -/
theorem description_byte_ceiling_counterexample :
    pyUtf8Len (wrapCDATA c1HtmlMulti) > 4000 ∧
    pyUtf8Len (format_description c1HtmlMulti) > 4000 ∧
    pyUtf8Len (wrapCDATA c1HtmlTag) > 4000 ∧
    format_description c1HtmlTag = wrapCDATA (List.replicate 3984 'a' ++ "<b".data) ∧
    hasUnterminatedTag (List.replicate 3984 'a' ++ "<b".data) = true ∧
    episode_description_text id c1HtmlTag ≠ wrapCDATA c1HtmlTag := by
  refine ⟨by rw [c1HtmlMulti_wrapped_bytes]; norm_num,
    by rw [c1HtmlMulti_format, c1HtmlMulti_wrapped_bytes]; norm_num,
    by rw [c1HtmlTag_wrapped_bytes]; norm_num,
    c1HtmlTag_format, ?_, ?_⟩
  · have hrf : pyRfind '<' (List.replicate 3984 'a' ++ "<b".data) = some 3984 := by
      have := pyRfind_append_some '<' (List.replicate 3984 'a') "<b".data 0 (by rfl)
      rw [List.length_replicate] at this
      exact this
    simp only [hasUnterminatedTag, hrf]
    have hdrop : (List.replicate 3984 'a' ++ "<b".data).drop 3984 = "<b".data := by
      rw [List.drop_append_eq_append_drop,
        List.drop_eq_nil_of_le (le_of_eq (List.length_replicate 3984 'a')),
        List.length_replicate]
      rfl
    rw [hdrop]
    rfl
  · intro heq
    have heq2 : wrapCDATA (List.replicate 3984 'a' ++ "<b".data) = wrapCDATA c1HtmlTag := by
      rw [← c1HtmlTag_format]
      exact heq
    have hlen := congrArg List.length heq2
    have h9 : "<![CDATA[".data.length = 9 := rfl
    have h3 : "]]>".data.length = 3 := rfl
    have h2 : "<b".data.length = 2 := rfl
    have h4 : "<b<c".data.length = 4 := rfl
    simp only [wrapCDATA, c1HtmlTag, List.length_append, List.length_replicate] at hlen
    rw [h9, h3, h2, h4] at hlen
    omega

/-- C1 amended: when the wrapped HTML exceeds 4000 bytes,
`format_description` emits a CDATA wrapping of a *prefix* of the HTML of
at most 3988 *characters* (so at most 4000 characters wrapped — the
ceiling is character-, not byte-exact), with one rollback at the last
unterminated `<`; and `generate_rss` applies this same formatter to
episode descriptions (lines 567-569), which are therefore truncated under
the same rule, not left whole. -/
theorem description_truncation_amended :
    (∀ html, pyUtf8Len (wrapCDATA html) > 4000 →
        ∃ t, t <+: html ∧ t.length ≤ 3988 ∧ format_description html = wrapCDATA t) ∧
    (∀ html, pyUtf8Len (wrapCDATA html) > 4000 →
        (format_description html).length ≤ 4000) ∧
    (∀ render d, episode_description_text render d = format_description (render d)) := by
  refine ⟨format_description_over_budget, ?_, fun render d => rfl⟩
  intro html h
  obtain ⟨t, hpre, hlen, heq⟩ := format_description_over_budget html h
  rw [heq]
  have h9 : "<![CDATA[".data.length = 9 := rfl
  have h3 : "]]>".data.length = 3 := rfl
  simp only [wrapCDATA, List.length_append]
  rw [h9, h3]
  omega

/-- Witness for C1's amended statement at the concrete over-budget input
`c1HtmlTag`. -/
theorem description_truncation_amended_witness :
    ∃ t, t <+: c1HtmlTag ∧ t.length ≤ 3988 ∧
      format_description c1HtmlTag = wrapCDATA t :=
  description_truncation_amended.1 c1HtmlTag
    (by rw [c1HtmlTag_wrapped_bytes]; norm_num)

/-! ## Claims C2 and C10: lemmas about `validate_config` -/

/-- The computation returned normally (did not raise). -/
def ExOk {α : Type} (x : Except String α) : Prop := ∃ a, x = Except.ok a

theorem exOk_bind {α β : Type} {x : Except String α} {f : α → Except String β}
    (hx : ExOk x) (hf : ∀ a, ExOk (f a)) : ExOk (x >>= f) := by
  obtain ⟨a, ha⟩ := hx
  rw [ha, except_bind_ok]
  exact hf a

theorem exOk_pure {α : Type} (a : α) : ExOk (pure a : Except String α) := ⟨a, rfl⟩

theorem exOk_ite {α : Type} (c : Prop) [Decidable c] (x y : Except String α)
    (hx : ExOk x) (hy : ExOk y) : ExOk (if c then x else y) := by
  split <;> assumption

theorem reqMetaFieldErr_dict (kvs : List (String × PyVal)) (f : String) :
    ExOk (reqMetaFieldErr (PyVal.dict kvs) f) := by
  unfold reqMetaFieldErr
  cases hl : dictLookup kvs f with
  | none =>
      simp [pyContains, hl, except_bind_ok, except_pure_eq]
      exact ⟨_, rfl⟩
  | some v =>
      simp [pyContains, pyGetItem, hl, except_bind_ok, except_pure_eq]
      exact ⟨_, rfl⟩

theorem reqMetaErrsAux_dict (kvs : List (String × PyVal)) (fs : List String) :
    ExOk (reqMetaErrsAux (PyVal.dict kvs) fs) := by
  induction fs with
  | nil => exact ⟨_, rfl⟩
  | cons f ft ih =>
      unfold reqMetaErrsAux
      exact exOk_bind (reqMetaFieldErr_dict kvs f)
        (fun a => exOk_bind ih (fun b => exOk_pure _))

theorem authorErrs_dict (kvs : List (String × PyVal)) :
    ExOk (authorErrs (PyVal.dict kvs)) := by
  unfold authorErrs
  refine exOk_bind ⟨_, rfl⟩ (fun a => exOk_bind ⟨_, rfl⟩ (fun b => ?_))
  exact exOk_ite _ _ _ (exOk_pure _) (exOk_pure _)

theorem categoryErrs_dict (kvs : List (String × PyVal)) :
    ExOk (categoryErrs (PyVal.dict kvs)) := by
  unfold categoryErrs
  exact exOk_bind ⟨_, rfl⟩ (fun a => exOk_bind ⟨_, rfl⟩ (fun b => exOk_pure _))

theorem urlMetaFieldErr_dict (kvs : List (String × PyVal)) (f : String) :
    ExOk (urlMetaFieldErr (PyVal.dict kvs) f) := by
  unfold urlMetaFieldErr
  cases hl : dictLookup kvs f with
  | none =>
      simp [pyContains, hl, except_bind_ok, except_pure_eq]
      exact ⟨_, rfl⟩
  | some v =>
      simp [pyContains, pyGetItem, hl, except_bind_ok, except_pure_eq]
      repeat' split
      all_goals exact ⟨_, rfl⟩

theorem urlMetaErrsAux_dict (kvs : List (String × PyVal)) (fs : List String) :
    ExOk (urlMetaErrsAux (PyVal.dict kvs) fs) := by
  induction fs with
  | nil => exact ⟨_, rfl⟩
  | cons f ft ih =>
      unfold urlMetaErrsAux
      exact exOk_bind (urlMetaFieldErr_dict kvs f)
        (fun a => exOk_bind ih (fun b => exOk_pure _))

theorem boolMetaFieldErr_dict (kvs : List (String × PyVal)) (f : String) :
    ExOk (boolMetaFieldErr (PyVal.dict kvs) f) := by
  unfold boolMetaFieldErr
  cases hl : dictLookup kvs f with
  | none =>
      simp [pyContains, hl, except_bind_ok, except_pure_eq]
      exact ⟨_, rfl⟩
  | some v =>
      simp [pyContains, pyGetItem, hl, except_bind_ok, except_pure_eq]
      exact ⟨_, rfl⟩

theorem boolMetaErrsAux_dict (kvs : List (String × PyVal)) (fs : List String) :
    ExOk (boolMetaErrsAux (PyVal.dict kvs) fs) := by
  induction fs with
  | nil => exact ⟨_, rfl⟩
  | cons f ft ih =>
      unfold boolMetaErrsAux
      exact exOk_bind (boolMetaFieldErr_dict kvs f)
        (fun a => exOk_bind ih (fun b => exOk_pure _))

theorem lockedErrs_dict (kvs : List (String × PyVal)) :
    ExOk (lockedErrs (PyVal.dict kvs)) := by
  unfold lockedErrs
  cases hl : dictLookup kvs "podcast_locked" with
  | none =>
      simp [pyContains, hl, except_bind_ok, except_pure_eq]
      exact ⟨_, rfl⟩
  | some v =>
      simp [pyContains, pyGetItem, hl, except_bind_ok, except_pure_eq]
      exact ⟨_, rfl⟩

theorem emailErrs_invalid (kvs : List (String × PyVal)) (e : String)
    (hor : pyOr (dictGetD kvs "email") (dictGetD kvs "itunes_email") = PyVal.str e)
    (hne : e ≠ "") (hinv : pyReMatchEmail e = false) :
    emailErrs (PyVal.dict kvs) = Except.ok ["Invalid email format: '" ++ e ++ "'"] := by
  unfold emailErrs
  simp only [pyGetMethod, except_bind_ok, hor]
  have ht : pyTruthy (PyVal.str e) = true := by
    simp [pyTruthy, hne]
  simp [ht, is_valid_email, except_bind_ok, except_pure_eq, hinv, pyToStr]

theorem metadataErrors_email_invalid (kvs : List (String × PyVal)) (e : String)
    (hor : pyOr (dictGetD kvs "email") (dictGetD kvs "itunes_email") = PyVal.str e)
    (hne : e ≠ "") (hinv : pyReMatchEmail e = false) :
    ∃ l, metadataErrors (PyVal.dict kvs) = Except.ok l ∧
      ("Invalid email format: '" ++ e ++ "'") ∈ l := by
  obtain ⟨la, hla⟩ := reqMetaErrsAux_dict kvs required_metadata_fields
  obtain ⟨lc, hlc⟩ := authorErrs_dict kvs
  obtain ⟨ld, hld⟩ := categoryErrs_dict kvs
  obtain ⟨le, hle⟩ := urlMetaErrsAux_dict kvs url_metadata_fields
  obtain ⟨lf, hlf⟩ := boolMetaErrsAux_dict kvs boolean_metadata_fields
  obtain ⟨lg, hlg⟩ := lockedErrs_dict kvs
  refine ⟨la ++ ["Invalid email format: '" ++ e ++ "'"] ++ lc ++ ld ++ le ++ lf ++ lg, ?_, ?_⟩
  · unfold metadataErrors
    rw [hla, except_bind_ok, emailErrs_invalid kvs e hor hne hinv, except_bind_ok,
      hlc, except_bind_ok, hld, except_bind_ok, hle, except_bind_ok,
      hlf, except_bind_ok, hlg, except_bind_ok]
    rfl
  · simp

theorem reqEpFieldErr_dict (i : Nat) (kvs : List (String × PyVal)) (f : String) :
    ExOk (reqEpFieldErr i (PyVal.dict kvs) f) := by
  unfold reqEpFieldErr
  cases hl : dictLookup kvs f with
  | none =>
      simp [pyContains, hl, except_bind_ok, except_pure_eq]
      exact ⟨_, rfl⟩
  | some v =>
      simp [pyContains, pyGetItem, hl, except_bind_ok, except_pure_eq]
      exact ⟨_, rfl⟩

theorem reqEpErrsAux_dict (i : Nat) (kvs : List (String × PyVal)) (fs : List String) :
    ExOk (reqEpErrsAux i (PyVal.dict kvs) fs) := by
  induction fs with
  | nil => exact ⟨_, rfl⟩
  | cons f ft ih =>
      unfold reqEpErrsAux
      exact exOk_bind (reqEpFieldErr_dict i kvs f)
        (fun a => exOk_bind ih (fun b => exOk_pure _))

theorem pubDateErrs_dict (i : Nat) (kvs : List (String × PyVal))
    (h : dictLookup kvs "publication_date" = none ∨
      ∃ s, dictLookup kvs "publication_date" = some (PyVal.str s)) :
    ExOk (pubDateErrs i (PyVal.dict kvs)) := by
  unfold pubDateErrs
  rcases h with h | ⟨s, h⟩
  · simp [pyContains, h, except_bind_ok, except_pure_eq]
    exact ⟨_, rfl⟩
  · simp [pyContains, pyGetItem, h, is_valid_iso_date, except_bind_ok, except_pure_eq]
    exact ⟨_, rfl⟩

theorem assetUrlErrs_dict (i : Nat) (kvs : List (String × PyVal)) :
    ExOk (assetUrlErrs i (PyVal.dict kvs)) := by
  unfold assetUrlErrs
  cases hl : dictLookup kvs "asset_url" with
  | none =>
      simp [pyContains, hl, except_bind_ok, except_pure_eq]
      exact ⟨_, rfl⟩
  | some v =>
      simp [pyContains, pyGetItem, hl, except_bind_ok, except_pure_eq]
      exact ⟨_, rfl⟩

theorem epUrlFieldErr_dict (i : Nat) (kvs : List (String × PyVal)) (f : String) :
    ExOk (epUrlFieldErr i (PyVal.dict kvs) f) := by
  unfold epUrlFieldErr
  cases hl : dictLookup kvs f with
  | none =>
      simp [pyContains, hl, except_bind_ok, except_pure_eq]
      exact ⟨_, rfl⟩
  | some v =>
      simp [pyContains, pyGetItem, hl, except_bind_ok, except_pure_eq]
      repeat' split
      all_goals exact ⟨_, rfl⟩

theorem epUrlErrsAux_dict (i : Nat) (kvs : List (String × PyVal)) (fs : List String) :
    ExOk (epUrlErrsAux i (PyVal.dict kvs) fs) := by
  induction fs with
  | nil => exact ⟨_, rfl⟩
  | cons f ft ih =>
      unfold epUrlErrsAux
      exact exOk_bind (epUrlFieldErr_dict i kvs f)
        (fun a => exOk_bind ih (fun b => exOk_pure _))

theorem epNumFieldErr_dict (i : Nat) (kvs : List (String × PyVal)) (f : String) :
    ExOk (epNumFieldErr i (PyVal.dict kvs) f) := by
  unfold epNumFieldErr
  cases hl : dictLookup kvs f with
  | none =>
      simp [pyContains, hl, except_bind_ok, except_pure_eq]
      exact ⟨_, rfl⟩
  | some v =>
      simp [pyContains, pyGetItem, hl, except_bind_ok, except_pure_eq]
      exact ⟨_, rfl⟩

theorem epTypeErrs_dict (i : Nat) (kvs : List (String × PyVal)) :
    ExOk (epTypeErrs i (PyVal.dict kvs)) := by
  unfold epTypeErrs
  cases hl : dictLookup kvs "episode_type" with
  | none =>
      simp [pyContains, hl, except_bind_ok, except_pure_eq]
      exact ⟨_, rfl⟩
  | some v =>
      simp [pyContains, pyGetItem, hl, except_bind_ok, except_pure_eq]
      exact ⟨_, rfl⟩

theorem epBoolFieldErr_dict (i : Nat) (kvs : List (String × PyVal)) (f : String) :
    ExOk (epBoolFieldErr i (PyVal.dict kvs) f) := by
  unfold epBoolFieldErr
  cases hl : dictLookup kvs f with
  | none =>
      simp [pyContains, hl, except_bind_ok, except_pure_eq]
      exact ⟨_, rfl⟩
  | some v =>
      simp [pyContains, pyGetItem, hl, except_bind_ok, except_pure_eq]
      exact ⟨_, rfl⟩

theorem epBoolErrsAux_dict (i : Nat) (kvs : List (String × PyVal)) (fs : List String) :
    ExOk (epBoolErrsAux i (PyVal.dict kvs) fs) := by
  induction fs with
  | nil => exact ⟨_, rfl⟩
  | cons f ft ih =>
      unfold epBoolErrsAux
      exact exOk_bind (epBoolFieldErr_dict i kvs f)
        (fun a => exOk_bind ih (fun b => exOk_pure _))

theorem transcriptErr_ok (i j : Nat) (t : PyVal) : ExOk (transcriptErr i j t) := by
  unfold transcriptErr
  cases t with
  | none => exact ⟨_, rfl⟩
  | bool b => exact ⟨_, rfl⟩
  | int n => exact ⟨_, rfl⟩
  | str s => exact ⟨_, rfl⟩
  | list xs => exact ⟨_, rfl⟩
  | dict tkvs =>
      cases hu : dictLookup tkvs "url" with
      | none =>
          cases ht : dictLookup tkvs "type" with
          | none =>
              simp [pyContains, pyGetItem, hu, ht, except_bind_ok, except_pure_eq]
              exact ⟨_, rfl⟩
          | some tv =>
              simp [pyContains, pyGetItem, hu, ht, except_bind_ok, except_pure_eq]
              exact ⟨_, rfl⟩
      | some u =>
          cases ht : dictLookup tkvs "type" with
          | none =>
              simp [pyContains, pyGetItem, hu, ht, except_bind_ok, except_pure_eq]
              exact ⟨_, rfl⟩
          | some tv =>
              simp [pyContains, pyGetItem, hu, ht, except_bind_ok, except_pure_eq]
              exact ⟨_, rfl⟩

theorem transcriptErrsAux_ok (i : Nat) (j : Nat) (ts : List PyVal) :
    ExOk (transcriptErrsAux i j ts) := by
  induction ts generalizing j with
  | nil => exact ⟨_, rfl⟩
  | cons t tt ih =>
      unfold transcriptErrsAux
      exact exOk_bind (transcriptErr_ok i j t)
        (fun a => exOk_bind (ih (j + 1)) (fun b => exOk_pure _))

theorem epTranscriptErrs_dict (i : Nat) (kvs : List (String × PyVal)) :
    ExOk (epTranscriptErrs i (PyVal.dict kvs)) := by
  unfold epTranscriptErrs
  cases hl : dictLookup kvs "transcripts" with
  | none =>
      simp [pyContains, hl, except_bind_ok, except_pure_eq]
      exact ⟨_, rfl⟩
  | some v =>
      simp only [pyContains, pyGetItem, hl, Option.isSome_some, except_bind_ok]
      cases v <;> first
        | exact ⟨_, rfl⟩
        | exact (by simpa using transcriptErrsAux_ok i 0 _)

/-- An episode value that cannot make the validator raise: either not a
dict (one error, skipped), or a dict whose `publication_date`, when
present, is a string. -/
def EpSafe : PyVal → Prop
  | PyVal.dict ekvs => dictLookup ekvs "publication_date" = none ∨
      ∃ s, dictLookup ekvs "publication_date" = some (PyVal.str s)
  | _ => True

theorem episodeErrs_ok (i : Nat) (ep : PyVal) (h : EpSafe ep) :
    ExOk (episodeErrs i ep) := by
  cases ep with
  | dict ekvs =>
      unfold episodeErrs
      exact exOk_bind (reqEpErrsAux_dict i ekvs required_episode_fields) (fun a =>
        exOk_bind (pubDateErrs_dict i ekvs h) (fun b =>
        exOk_bind (assetUrlErrs_dict i ekvs) (fun c =>
        exOk_bind (epUrlErrsAux_dict i ekvs ["link", "image"]) (fun d =>
        exOk_bind (epNumFieldErr_dict i ekvs "episode") (fun e =>
        exOk_bind (epNumFieldErr_dict i ekvs "season") (fun f2 =>
        exOk_bind (epTypeErrs_dict i ekvs) (fun g =>
        exOk_bind (epBoolErrsAux_dict i ekvs ["explicit", "itunes_explicit"]) (fun h2 =>
        exOk_bind (epTranscriptErrs_dict i ekvs) (fun t =>
        exOk_pure _)))))))))
  | none => exact ⟨_, rfl⟩
  | bool b => exact ⟨_, rfl⟩
  | int n => exact ⟨_, rfl⟩
  | str s => exact ⟨_, rfl⟩
  | list xs => exact ⟨_, rfl⟩

theorem episodesErrsAux_ok (i : Nat) (eps : List PyVal)
    (h : ∀ ep ∈ eps, EpSafe ep) : ExOk (episodesErrsAux i eps) := by
  induction eps generalizing i with
  | nil => exact ⟨_, rfl⟩
  | cons ep rest ih =>
      unfold episodesErrsAux
      exact exOk_bind (episodeErrs_ok i ep (h ep (List.mem_cons_self ep rest)))
        (fun a => exOk_bind (ih (i + 1) (fun x hx => h x (List.mem_cons_of_mem ep hx)))
          (fun b => exOk_pure _))

/-! ## Claim C2 -/

/-- Counterexample to C2 as stated: (i) `validate_config` *does* raise —
with `metadata = {"email": 1}` the truthy non-string email reaches
`re.match`, a `TypeError` (so it does not always return a pair); and (ii)
on the empty dict it stops at the missing `metadata` section, reporting
one error although the `episodes` section is missing as well — it does
not collect every violation. -/
theorem validate_config_claim_counterexample :
    validate_config (PyVal.dict [("metadata", PyVal.dict [("email", PyVal.int 1)]),
        ("episodes", PyVal.list [])]) =
      Except.error "TypeError: expected string or bytes-like object" ∧
    validate_config (PyVal.dict []) =
      Except.ok (false, ["Missing required 'metadata' section"]) ∧
    dictLookup ([] : List (String × PyVal)) "episodes" = none := by
  exact ⟨by rfl, by rfl, rfl⟩

/-- C2 amended: on every run that returns (rather than raising — a truthy
non-string email or a non-string publication date raises instead of being
collected), the returned `ok` is true exactly when the error list is
empty; the four structural failures (non-dict config, missing
`metadata`, missing `episodes`, non-list `episodes`) return early with
the errors collected so far rather than checking everything. -/
theorem validate_config_ok_iff_empty (config : PyVal) (ok : Bool) (errs : List String)
    (h : validate_config config = Except.ok (ok, errs)) : ok = true ↔ errs = [] := by
  have pair_case : ∀ (b : Bool) (l : List String),
      (Except.ok (b, l) : Except String (Bool × List String)) = Except.ok (ok, errs) →
        (b = ok ∧ l = errs) := by
    intro b l hbl
    have := Except.ok.inj hbl
    exact ⟨congrArg Prod.fst this, congrArg Prod.snd this⟩
  cases config with
  | dict kvs =>
      simp only [validate_config] at h
      by_cases hm : (dictLookup kvs "metadata").isNone
      · rw [if_pos hm] at h
        obtain ⟨hb, hl⟩ := pair_case _ _ h
        subst hb
        subst hl
        simp
      · rw [if_neg hm] at h
        by_cases he : (dictLookup kvs "episodes").isNone
        · rw [if_pos he] at h
          obtain ⟨hb, hl⟩ := pair_case _ _ h
          subst hb
          subst hl
          simp
        · rw [if_neg he] at h
          cases hmer : metadataErrors (dictGetD kvs "metadata") with
          | error msg =>
              rw [hmer, except_bind_error] at h
              exact absurd h (by simp)
          | ok merrs =>
              rw [hmer, except_bind_ok] at h
              cases heps : dictGetD kvs "episodes" with
              | list eps =>
                  simp only [heps] at h
                  cases hee : episodesErrsAux 0 eps with
                  | error msg =>
                      rw [hee, except_bind_error] at h
                      exact absurd h (by simp)
                  | ok eerrs =>
                      rw [hee, except_bind_ok, except_pure_eq] at h
                      obtain ⟨hb, hl⟩ := pair_case _ _ h
                      subst hb
                      subst hl
                      constructor
                      · intro hb
                        have : ((merrs ++ (if eps.length == 0 then
                            ["At least one episode is required"] else [])) ++
                            eerrs).length = 0 := by
                          simpa using hb
                        exact List.length_eq_zero.mp this
                      · intro hl
                        rw [hl]
                        rfl
              | none => simp only [heps, except_pure_eq] at h
                        obtain ⟨hb, hl⟩ := pair_case _ _ h
                        subst hb
                        subst hl
                        simp
              | bool b => simp only [heps, except_pure_eq] at h
                          obtain ⟨hb, hl⟩ := pair_case _ _ h
                          subst hb
                          subst hl
                          simp
              | int n => simp only [heps, except_pure_eq] at h
                         obtain ⟨hb, hl⟩ := pair_case _ _ h
                         subst hb
                         subst hl
                         simp
              | str s => simp only [heps, except_pure_eq] at h
                         obtain ⟨hb, hl⟩ := pair_case _ _ h
                         subst hb
                         subst hl
                         simp
              | dict d => simp only [heps, except_pure_eq] at h
                          obtain ⟨hb, hl⟩ := pair_case _ _ h
                          subst hb
                          subst hl
                          simp
  | none =>
      simp only [validate_config] at h
      obtain ⟨hb, hl⟩ := pair_case _ _ h
      subst hb
      subst hl
      simp
  | bool b =>
      simp only [validate_config] at h
      obtain ⟨hb, hl⟩ := pair_case _ _ h
      subst hb
      subst hl
      simp
  | int n =>
      simp only [validate_config] at h
      obtain ⟨hb, hl⟩ := pair_case _ _ h
      subst hb
      subst hl
      simp
  | str s =>
      simp only [validate_config] at h
      obtain ⟨hb, hl⟩ := pair_case _ _ h
      subst hb
      subst hl
      simp
  | list xs =>
      simp only [validate_config] at h
      obtain ⟨hb, hl⟩ := pair_case _ _ h
      subst hb
      subst hl
      simp

/-- A fully valid configuration used as the witness input. -/
def validConfigExample : PyVal := PyVal.dict [
  ("metadata", PyVal.dict [
    ("title", PyVal.str "T"), ("description", PyVal.str "D"),
    ("link", PyVal.str "https://example.com/x"),
    ("rss_feed_url", PyVal.str "https://example.com/feed.xml"),
    ("language", PyVal.str "en"),
    ("email", PyVal.str "a@b.co"), ("author", PyVal.str "A")]),
  ("episodes", PyVal.list [PyVal.dict [
    ("title", PyVal.str "E"), ("description", PyVal.str "D"),
    ("publication_date", PyVal.str "2024-01-01T00:00:00Z"),
    ("asset_url", PyVal.str "https://example.com/e.mp4")]])]

/-- Witness for C2's amended claim: a fully valid config validates to
`(True, [])`, and the equivalence holds there. -/
theorem validate_config_ok_iff_empty_witness :
    validate_config validConfigExample = Except.ok (true, []) ∧
      (true = true ↔ ([] : List String) = []) :=
  ⟨by rfl, validate_config_ok_iff_empty validConfigExample true [] (by rfl)⟩

/-! ## Claim C10 -/

/-- C10: in any config whose `metadata`/`episodes` sections are in place,
whose required fields are present as non-empty strings, and whose
resolved owner email (`email` or legacy `itunes_email`) is a non-empty
string that fails the regex
`^[a-zA-Z0-9._%+-]+@[a-zA-Z0-9.-]+\.[a-zA-Z]{2,}$`, `validate_config`
returns `ok = False` with an `Invalid email format` error — presence of
the email field alone does not make the config valid. -/
theorem email_format_rejected (ckvs mkvs : List (String × PyVal)) (eps : List PyVal)
    (e : String)
    (hm : dictLookup ckvs "metadata" = some (PyVal.dict mkvs))
    (he : dictLookup ckvs "episodes" = some (PyVal.list eps))
    (hreq : ∀ f ∈ required_metadata_fields,
      ∃ s, dictLookup mkvs f = some (PyVal.str s) ∧ pyStrip s ≠ "")
    (hor : pyOr (dictGetD mkvs "email") (dictGetD mkvs "itunes_email") = PyVal.str e)
    (hne : e ≠ "")
    (hinv : pyReMatchEmail e = false)
    (heps : ∀ ep ∈ eps, ∃ ekvs, ep = PyVal.dict ekvs ∧
      ∀ f ∈ required_episode_fields,
        ∃ s, dictLookup ekvs f = some (PyVal.str s) ∧ pyStrip s ≠ "") :
    ∃ errs, validate_config (PyVal.dict ckvs) = Except.ok (false, errs) ∧
      ("Invalid email format: '" ++ e ++ "'") ∈ errs := by
  obtain ⟨merrs, hmerrs, hmem⟩ := metadataErrors_email_invalid mkvs e hor hne hinv
  have hsafe : ∀ ep ∈ eps, EpSafe ep := by
    intro ep hep
    obtain ⟨ekvs, hek, hf⟩ := heps ep hep
    subst hek
    obtain ⟨s, hs, _⟩ := hf "publication_date" (by simp [required_episode_fields])
    exact Or.inr ⟨s, hs⟩
  obtain ⟨eerrs, heerrs⟩ := episodesErrsAux_ok 0 eps hsafe
  have hm2 : dictGetD ckvs "metadata" = PyVal.dict mkvs := by
    simp [dictGetD, hm]
  have he2 : dictGetD ckvs "episodes" = PyVal.list eps := by
    simp [dictGetD, he]
  have hmem2 : ("Invalid email format: '" ++ e ++ "'") ∈
      (merrs ++ (if eps.length == 0 then ["At least one episode is required"] else []))
        ++ eerrs :=
    List.mem_append_left _ (List.mem_append_left _ hmem)
  refine ⟨(merrs ++ (if eps.length == 0 then ["At least one episode is required"]
      else [])) ++ eerrs, ?_, hmem2⟩
  have hne0 : ((merrs ++ (if eps.length == 0 then ["At least one episode is required"]
      else [])) ++ eerrs).length ≠ 0 := by
    intro h0
    rw [List.length_eq_zero.mp h0] at hmem2
    exact absurd hmem2 (List.not_mem_nil _)
  simp only [validate_config, hm2, he2, hmerrs, heerrs, except_bind_ok, except_pure_eq]
  rw [if_neg (by simp [hm]), if_neg (by simp [he])]
  have : ((((merrs ++ (if eps.length == 0 then ["At least one episode is required"]
      else [])) ++ eerrs).length == 0)) = false := by
    simpa using hne0
  rw [this]

/-- Witness for C10 at a concrete config: every required field present as
a non-empty string, but the email `not-an-email` fails the pattern. -/
theorem email_format_rejected_witness :
    ∃ errs, validate_config (PyVal.dict [
        ("metadata", PyVal.dict [
          ("title", PyVal.str "T"), ("description", PyVal.str "D"),
          ("link", PyVal.str "https://example.com/x"),
          ("rss_feed_url", PyVal.str "https://example.com/feed.xml"),
          ("language", PyVal.str "en"),
          ("email", PyVal.str "not-an-email"), ("author", PyVal.str "A")]),
        ("episodes", PyVal.list [PyVal.dict [
          ("title", PyVal.str "E"), ("description", PyVal.str "D"),
          ("publication_date", PyVal.str "2024-01-01T00:00:00Z"),
          ("asset_url", PyVal.str "https://example.com/e.mp4")]])]) =
      Except.ok (false, errs) ∧
      ("Invalid email format: '" ++ "not-an-email" ++ "'") ∈ errs := by
  apply email_format_rejected
  · rfl
  · rfl
  · intro f hf
    fin_cases hf
    · exact ⟨"T", rfl, by decide⟩
    · exact ⟨"D", rfl, by decide⟩
    · exact ⟨"https://example.com/x", rfl, by decide⟩
    · exact ⟨"https://example.com/feed.xml", rfl, by decide⟩
    · exact ⟨"en", rfl, by decide⟩
  · rfl
  · decide
  · rfl
  · intro ep hep
    fin_cases hep
    refine ⟨_, rfl, ?_⟩
    intro f hf
    fin_cases hf
    · exact ⟨"E", rfl, by decide⟩
    · exact ⟨"D", rfl, by decide⟩
    · exact ⟨"2024-01-01T00:00:00Z", rfl, by decide⟩
    · exact ⟨"https://example.com/e.mp4", rfl, by decide⟩
